import Mathlib

/-!
Verification of the OpenVROpenGLWidget repository (a Qt OpenGL widget that
renders a scene into an OpenVR head-mounted display and mirrors it in the
desktop window).  The C++ sources `OpenVROpenGLWidget.h/.cpp` are embedded
shallowly: Qt matrices become rational 4x4 matrices, the OpenVR SDK becomes an
explicit environment record, GL/VR side effects become an event trace, and the
widget's member variables become a state record.  Floating point arithmetic is
modelled by exact rationals; the trigonometric routines used by
`QQuaternion::fromEulerAngles` are abstracted as an explicit `Trig` record of
cosine / sine / degree-conversion functions.
-/

/-- Model of `QMatrix4x4`: a 4x4 rational matrix (row/column indexed). -/
abbrev Q4 : Type := Matrix (Fin 4) (Fin 4) ℚ

/-- Model of the row-major 16-argument `QMatrix4x4` constructor. -/
def qMat4 (m00 m01 m02 m03 m10 m11 m12 m13 m20 m21 m22 m23 m30 m31 m32 m33 : ℚ) : Q4 :=
  !![m00, m01, m02, m03; m10, m11, m12, m13; m20, m21, m22, m23; m30, m31, m32, m33]

/-- Model of `QVector3D` with exact rational components. -/
@[ext] structure V3 where
  x : ℚ
  y : ℚ
  z : ℚ
deriving DecidableEq

instance : Add V3 := ⟨fun a b => ⟨a.x + b.x, a.y + b.y, a.z + b.z⟩⟩

/-- Model of `vr::HmdMatrix34_t`: a 3x4 float array. -/
structure HmdMatrix34 where
  m : Fin 3 → Fin 4 → ℚ

/-- Model of `vr::HmdMatrix44_t`: a 4x4 float array. -/
structure HmdMatrix44 where
  m : Fin 4 → Fin 4 → ℚ

/-- `COpenVROpenGLWidget::vrMatrixToQt` (3x4 overload): copies the three rows
and appends the affine row `(0, 0, 0, 1)`. -/
def vrMatrixToQt34 (mat : HmdMatrix34) : Q4 :=
  qMat4
    (mat.m 0 0) (mat.m 0 1) (mat.m 0 2) (mat.m 0 3)
    (mat.m 1 0) (mat.m 1 1) (mat.m 1 2) (mat.m 1 3)
    (mat.m 2 0) (mat.m 2 1) (mat.m 2 2) (mat.m 2 3)
    0 0 0 1

/-- `COpenVROpenGLWidget::vrMatrixToQt` (4x4 overload): copies all sixteen
entries in row-major order. -/
def vrMatrixToQt44 (mat : HmdMatrix44) : Q4 :=
  qMat4
    (mat.m 0 0) (mat.m 0 1) (mat.m 0 2) (mat.m 0 3)
    (mat.m 1 0) (mat.m 1 1) (mat.m 1 2) (mat.m 1 3)
    (mat.m 2 0) (mat.m 2 1) (mat.m 2 2) (mat.m 2 3)
    (mat.m 3 0) (mat.m 3 1) (mat.m 3 2) (mat.m 3 3)

/-- Restriction of a 4x4 float array to its top three rows. -/
def HmdMatrix44.topThreeRows (mat : HmdMatrix44) : HmdMatrix34 :=
  ⟨fun i j => mat.m ⟨i.val, by omega⟩ j⟩

/-- Model of `QMatrix4x4::inverted()`: the true inverse via the adjugate when
the determinant is nonzero, and the identity matrix otherwise (Qt returns the
identity when the matrix is not invertible). -/
def qInverted (A : Q4) : Q4 :=
  if A.det = 0 then 1 else A.det⁻¹ • A.adjugate

/-- The trigonometric primitives used by the float code, abstracted: `cos` and
`sin` model `std::cos` / `std::sin`, `degToRad` models `qDegreesToRadians`. -/
structure Trig where
  cos : ℚ → ℚ
  sin : ℚ → ℚ
  degToRad : ℚ → ℚ

/-- Model of `QQuaternion` (scalar part `w`, vector part `x, y, z`). -/
structure Quat where
  w : ℚ
  x : ℚ
  y : ℚ
  z : ℚ
deriving DecidableEq

/-- Hamilton product of quaternions. -/
def quatMul (a b : Quat) : Quat :=
  ⟨a.w * b.w - a.x * b.x - a.y * b.y - a.z * b.z,
   a.w * b.x + a.x * b.w + a.y * b.z - a.z * b.y,
   a.w * b.y - a.x * b.z + a.y * b.w + a.z * b.x,
   a.w * b.z + a.x * b.y - a.y * b.x + a.z * b.w⟩

/-- Quaternion conjugate. -/
def quatConj (a : Quat) : Quat := ⟨a.w, -a.x, -a.y, -a.z⟩

/-- Squared norm of a quaternion. -/
def quatNormSq (a : Quat) : ℚ := a.w ^ 2 + a.x ^ 2 + a.y ^ 2 + a.z ^ 2

/-- `QQuaternion::fromEulerAngles(pitch, yaw, roll)` following the Qt source:
convert the three angles from degrees to radians, halve them, and combine the
cosines and sines of the half-angles. -/
def fromEulerAngles (t : Trig) (pitch yaw roll : ℚ) : Quat :=
  let hp := t.degToRad pitch * (1 / 2)
  let hy := t.degToRad yaw * (1 / 2)
  let hr := t.degToRad roll * (1 / 2)
  let c1 := t.cos hy
  let s1 := t.sin hy
  let c2 := t.cos hr
  let s2 := t.sin hr
  let c3 := t.cos hp
  let s3 := t.sin hp
  ⟨c1 * c2 * c3 + s1 * s2 * s3,
   c1 * c2 * s3 + s1 * s2 * c3,
   s1 * c2 * c3 - c1 * s2 * s3,
   c1 * s2 * c3 - s1 * c2 * s3⟩

/-- `QMatrix4x4::rotate(QQuaternion)` applied to the identity matrix: the
standard rotation matrix built from a quaternion (Qt follows the
matrix-quaternion FAQ formula). -/
def rotationMatrixOfQuat (q : Quat) : Q4 :=
  qMat4
    (1 - 2 * (q.y ^ 2 + q.z ^ 2)) (2 * (q.x * q.y - q.z * q.w)) (2 * (q.x * q.z + q.y * q.w)) 0
    (2 * (q.x * q.y + q.z * q.w)) (1 - 2 * (q.x ^ 2 + q.z ^ 2)) (2 * (q.y * q.z - q.x * q.w)) 0
    (2 * (q.x * q.z - q.y * q.w)) (2 * (q.y * q.z + q.x * q.w)) (1 - 2 * (q.x ^ 2 + q.y ^ 2)) 0
    0 0 0 1

/-- `operator*(QMatrix4x4, QVector3D)` following the Qt source: a full affine
application with perspective division, skipping the division when the computed
`w` equals one. -/
def mulVec3 (M : Q4) (v : V3) : V3 :=
  let xc := M 0 0 * v.x + M 0 1 * v.y + M 0 2 * v.z + M 0 3
  let yc := M 1 0 * v.x + M 1 1 * v.y + M 1 2 * v.z + M 1 3
  let zc := M 2 0 * v.x + M 2 1 * v.y + M 2 2 * v.z + M 2 3
  let wc := M 3 0 * v.x + M 3 1 * v.y + M 3 2 * v.z + M 3 3
  if wc = 1 then ⟨xc, yc, zc⟩ else ⟨xc / wc, yc / wc, zc / wc⟩

/-- `QMatrix4x4::translate(QVector3D)` applied to the identity: the affine
translation matrix. -/
def translationMatrix (v : V3) : Q4 :=
  qMat4
    1 0 0 v.x
    0 1 0 v.y
    0 0 1 v.z
    0 0 0 1

/-- Rotation of a vector by a quaternion in the mathematically standard sense:
conjugation `q * (0, v) * conj q`.  This is the specification-side meaning of
"the delta vector rotated by the quaternion"; the code instead goes through
`rotationMatrixOfQuat`. -/
def rotateVectorByQuat (q : Quat) (v : V3) : V3 :=
  let r := quatMul (quatMul q ⟨0, v.x, v.y, v.z⟩) (quatConj q)
  ⟨r.x, r.y, r.z⟩

/-- `NEAR_CLIP` from the source: `0.1f`. -/
def NEAR_CLIP : ℚ := 1 / 10

/-- `FAR_CLIP` from the source: `10000.0f`. -/
def FAR_CLIP : ℚ := 10000

/-- `vr::k_unMaxTrackedDeviceCount` (64 in the OpenVR SDK). -/
abbrev maxTrackedDeviceCount : ℕ := 64

/-- A tracked device index, `vr::TrackedDeviceIndex_t` bounded by the device
count. -/
abbrev DeviceIx : Type := Fin maxTrackedDeviceCount

/-- `vr::k_unTrackedDeviceIndex_Hmd` (0 in the OpenVR SDK). -/
def trackedDeviceIndexHmd : DeviceIx := 0

/-- The `Eye` enumeration from the widget header (also used for hands). -/
inductive Eye where
  | Left
  | Right
deriving DecidableEq

instance : Fintype Eye :=
  ⟨⟨{Eye.Left, Eye.Right}, by decide⟩, by intro e; cases e <;> decide⟩

/-- `vr::ETrackedDeviceClass` (the constructors the code branches on). -/
inductive TrackedDeviceClass where
  | Invalid
  | HMD
  | Controller
  | GenericTracker
  | TrackingReference
  | DisplayRedirect
deriving DecidableEq

/-- `vr::ETrackedControllerRole`. -/
inductive TrackedControllerRole where
  | Invalid
  | LeftHand
  | RightHand
  | OptOut
  | Treadmill
  | Stylus
deriving DecidableEq

/-- `GL_RGBA8`. -/
def GL_RGBA8 : ℕ := 32856

/-- Model of `QOpenGLFramebufferObjectFormat`: the attachment kind, internal
texture format and sample count that the code sets. -/
structure FBOFormat where
  attachDepth : Bool
  internalFmt : ℕ
  samples : ℕ
deriving DecidableEq

/-- Model of a created `QOpenGLFramebufferObject`: the format and size it was
created with, whether GL reports it valid, and its color texture id. -/
structure FBO where
  fmt : FBOFormat
  width : ℕ
  height : ℕ
  valid : Bool
  tex : ℕ
deriving DecidableEq

/-- The GL runtime as far as framebuffer creation is concerned:
`new QOpenGLFramebufferObject(w, h, format)` yields an `FBO` whose validity and
texture id are decided by the driver. -/
structure GLEnv where
  makeFBO : FBOFormat → ℕ → ℕ → FBO

/-- Model of `COpenVROpenGLWidget::CEyeInfos`: stored projection/view matrices,
the two framebuffer pointers (`Option` models nullable C++ pointers) and the
eye texture size. -/
structure CEyeInfos where
  projection : Q4
  view : Q4
  frameBuffer : Option FBO
  resolveBuffer : Option FBO
  width : ℕ
  height : ℕ
deriving DecidableEq

/-- The `CEyeInfos` constructor: creates the multisampled render framebuffer
(depth attachment, `GL_RGBA8`, 4 samples) and the resolve framebuffer
(`GL_RGBA8`, 0 samples), both at the given eye size.  The matrices are the
`QMatrix4x4` default (identity). -/
def mkCEyeInfos (gl : GLEnv) (w h : ℕ) : CEyeInfos :=
  { projection := 1
    view := 1
    frameBuffer := some (gl.makeFBO ⟨true, GL_RGBA8, 4⟩ w h)
    resolveBuffer := some (gl.makeFBO ⟨false, GL_RGBA8, 0⟩ w h)
    width := w
    height := h }

/-- `CEyeInfos::IsValid`: both framebuffer pointers non-null and both
framebuffers valid. -/
def CEyeInfos.IsValid (e : CEyeInfos) : Bool :=
  e.frameBuffer.isSome && e.resolveBuffer.isSome
    && (e.frameBuffer.elim false FBO.valid) && (e.resolveBuffer.elim false FBO.valid)

/-- Model of `CRenderModel` (only its identity matters for the claims). -/
structure CRenderModel where
  name : String
deriving DecidableEq

/-- Model of `SControllerInfos`: pose matrix, nullable render model pointer and
the show flag. -/
structure SControllerInfos where
  rmat4Pose : Q4
  pRenderModel : Option CRenderModel
  bShowController : Bool
deriving DecidableEq

/-- The member variables of `COpenVROpenGLWidget` that the claims concern.
`vrSystem` is true when `m_vrSystem` is non-null. -/
structure WidgetState where
  vrSystem : Bool
  eyeInfos : Eye → Option CEyeInfos
  controllers : Eye → SControllerInfos
  hmdPose : Q4
  matrixDevicePose : DeviceIx → Q4
  cameraTranslation : V3
  cameraRotations : V3

/-- The state after the `COpenVROpenGLWidget` constructor: `m_vrSystem` and
both eye-info pointers null, translation `INITIAL_TRANSLATION = (0, 0, 0)`,
rotation `INITIAL_ROTATION = (0, 180, 0)`, default-constructed controller
slots and identity (default `QMatrix4x4`) pose matrices. -/
def initialWidgetState : WidgetState :=
  { vrSystem := false
    eyeInfos := fun _ => none
    controllers := fun _ => ⟨1, none, false⟩
    hmdPose := 1
    matrixDevicePose := fun _ => 1
    cameraTranslation := ⟨0, 0, 0⟩
    cameraRotations := ⟨0, 180, 0⟩ }

/-- `COpenVROpenGLWidget::TranslateEyes`: build the rotation matrix from the
quaternion of the current Euler angles, rotate the delta vector by it, and add
the result to the stored translation. -/
def TranslateEyes (t : Trig) (st : WidgetState) (dx dy dz : ℚ) : WidgetState :=
  let rollPitchYaw :=
    rotationMatrixOfQuat
      (fromEulerAngles t st.cameraRotations.x st.cameraRotations.y st.cameraRotations.z)
  let translation := mulVec3 rollPitchYaw ⟨dx, dy, dz⟩
  { st with cameraTranslation := st.cameraTranslation + translation }

/-- `COpenVROpenGLWidget::RotateEyes`: add the three angles componentwise to
the stored rotation vector. -/
def RotateEyes (st : WidgetState) (yaw pitch roll : ℚ) : WidgetState :=
  { st with cameraRotations := st.cameraRotations + ⟨yaw, pitch, roll⟩ }

/-- `COpenVROpenGLWidget::ResetEyesPositions`: restore `INITIAL_TRANSLATION`. -/
def ResetEyesPositions (st : WidgetState) : WidgetState :=
  { st with cameraTranslation := ⟨0, 0, 0⟩ }

/-- `COpenVROpenGLWidget::ResetEyesRotations`: restore `INITIAL_ROTATION`. -/
def ResetEyesRotations (st : WidgetState) : WidgetState :=
  { st with cameraRotations := ⟨0, 180, 0⟩ }

/-- `COpenVROpenGLWidget::GetTranslations`. -/
def GetTranslations (st : WidgetState) : V3 := st.cameraTranslation

/-- `COpenVROpenGLWidget::GetRotations`. -/
def GetRotations (st : WidgetState) : V3 := st.cameraRotations

/-- `COpenVROpenGLWidget::GetCameraMatrix`: rotate an identity matrix by the
quaternion of the stored Euler angles, then translate by the stored
translation (`rotate` then `translate` both right-multiply in Qt). -/
def GetCameraMatrix (t : Trig) (st : WidgetState) : Q4 :=
  rotationMatrixOfQuat
      (fromEulerAngles t st.cameraRotations.x st.cameraRotations.y st.cameraRotations.z)
    * translationMatrix st.cameraTranslation

/-- One camera interaction, for reasoning about arbitrary interaction
sequences. -/
inductive CamOp where
  | translate (dx dy dz : ℚ)
  | rotate (yaw pitch roll : ℚ)

/-- Apply a sequence of `TranslateEyes` / `RotateEyes` calls. -/
def applyCamOps (t : Trig) (st : WidgetState) (ops : List CamOp) : WidgetState :=
  ops.foldl
    (fun s op =>
      match op with
      | .translate dx dy dz => TranslateEyes t s dx dy dz
      | .rotate yaw pitch roll => RotateEyes s yaw pitch roll)
    st

/-- The OpenVR SDK as seen by the widget during one frame, plus the GL runtime
and float trigonometry. -/
structure VREnv where
  runtimeInstalled : Bool
  hmdPresent : Bool
  vrInitError : Option ℕ
  compositorOk : Bool
  recommendedWidth : ℕ
  recommendedHeight : ℕ
  eyeToHead : Eye → HmdMatrix34
  projectionMat : Eye → ℚ → ℚ → HmdMatrix44
  poseValid : DeviceIx → Bool
  devicePose : DeviceIx → HmdMatrix34
  deviceClass : DeviceIx → TrackedDeviceClass
  controllerRole : DeviceIx → TrackedControllerRole
  renderModelName : DeviceIx → String
  loadModel : String → Option CRenderModel
  gl : GLEnv
  trig : Trig

/-- The hand slot a controller device is assigned to:
`Left` exactly when the SDK reports `TrackedControllerRole_LeftHand`,
`Right` in every other case. -/
def roleHand (env : VREnv) (d : DeviceIx) : Eye :=
  if env.controllerRole d = TrackedControllerRole.LeftHand then Eye.Left else Eye.Right

/-- Observable GL / VR-compositor actions performed while painting a frame.
The pure-virtual hooks (`UpdateInputs`, `UpdateRendering`, `Render`) are
recorded as events; their subclass-defined behaviour is outside this class. -/
inductive Ev where
  | viewportEye (e : Eye) (w h : ℕ)
  | enableMultisample
  | disableMultisample
  | bindFB (e : Eye)
  | releaseFB (e : Eye)
  | blitToResolve (e : Eye)
  | clearBuffers
  | drawController (hand : Eye) (mvp : Q4)
  | renderScene (e : Eye) (view proj : Q4)
  | viewportWindow
  | submit (e : Eye) (tex : ℕ)
  | hookUpdateInputs
  | hookUpdateRendering
  | scheduleUpdate
deriving DecidableEq

/-- Whether an event is a compositor submission. -/
def Ev.isSubmit : Ev → Bool
  | .submit _ _ => true
  | _ => false

/-- The controller-rendering step of `renderEye` for one hand: skipped when
`m_bShowController` is false, otherwise `m_pRenderModel->Draw(matVP * pose)` —
a null-pointer dereference when the model failed to load. -/
def handDraw (c : SControllerInfos) (matVP : Q4) (hand : Eye) : Except Unit (List Ev) :=
  if c.bShowController then
    match c.pRenderModel with
    | none => .error ()
    | some _ => .ok [.drawController hand (matVP * c.rmat4Pose)]
  else
    .ok []

/-- `COpenVROpenGLWidget::renderEye`: clear, build the composite view
`m_eyeInfos[eye]->GetViewMatrix() * m_hmdPose`, draw the shown controllers
with `projection * view * pose`, then call the `Render` hook with
`view * GetCameraMatrix()` and the projection.  Dereferences
`m_eyeInfos[i_eye]` without a null check. -/
def renderEyeEvs (t : Trig) (st : WidgetState) (e : Eye) : Except Unit (List Ev) :=
  match st.eyeInfos e with
  | none => .error ()
  | some infos =>
    let projection := infos.projection
    let view := infos.view * st.hmdPose
    let matVP := projection * view
    match handDraw (st.controllers Eye.Left) matVP Eye.Left,
          handDraw (st.controllers Eye.Right) matVP Eye.Right with
    | .ok dL, .ok dR =>
        .ok ([Ev.clearBuffers] ++ dL ++ dR
          ++ [Ev.renderScene e (view * GetCameraMatrix t st) projection])
    | _, _ => .error ()

/-- The eye loop of `UpdatePositions`: for both eyes,
`SetTransformMatrix(vrMatrixToQt(GetEyeToHeadTransform(eye)).inverted(),
vrMatrixToQt(GetProjectionMatrix(eye, NEAR_CLIP, FAR_CLIP)))`.  Dereferences
`m_eyeInfos[eye]` without a null check. -/
def setEyeTransforms (env : VREnv) (st : WidgetState) : Except Unit WidgetState :=
  match st.eyeInfos Eye.Left, st.eyeInfos Eye.Right with
  | some l, some r =>
      .ok { st with
        eyeInfos := fun e =>
          match e with
          | Eye.Left => some { l with
              view := qInverted (vrMatrixToQt34 (env.eyeToHead Eye.Left))
              projection := vrMatrixToQt44 (env.projectionMat Eye.Left NEAR_CLIP FAR_CLIP) }
          | Eye.Right => some { r with
              view := qInverted (vrMatrixToQt34 (env.eyeToHead Eye.Right))
              projection := vrMatrixToQt44 (env.projectionMat Eye.Right NEAR_CLIP FAR_CLIP) } }
  | _, _ => .error ()

/-- The body of the device loop of `UpdatePositions` for one device index:
when the pose is valid, record the converted pose matrix; controllers update
the hand slot selected by `roleHand`, the HMD class updates `m_hmdPose` from
`m_matrixDevicePose[k_unTrackedDeviceIndex_Hmd]`, other classes do nothing. -/
def devStep (env : VREnv) (st : WidgetState) (d : DeviceIx) : WidgetState :=
  if env.poseValid d then
    let st1 := { st with
      matrixDevicePose :=
        Function.update st.matrixDevicePose d (vrMatrixToQt34 (env.devicePose d)) }
    match env.deviceClass d with
    | TrackedDeviceClass.Controller =>
        let h := roleHand env d
        { st1 with
          controllers :=
            Function.update st1.controllers h
              { st1.controllers h with rmat4Pose := vrMatrixToQt34 (env.devicePose d) } }
    | TrackedDeviceClass.HMD =>
        { st1 with hmdPose := qInverted (st1.matrixDevicePose trackedDeviceIndexHmd) }
    | _ => st1
  else
    st

/-- `COpenVROpenGLWidget::UpdatePositions`: set both eyes' matrices, then run
the device loop over all `k_unMaxTrackedDeviceCount` indices. -/
def UpdatePositions (env : VREnv) (st : WidgetState) : Except Unit WidgetState :=
  match setEyeTransforms env st with
  | .error e => .error e
  | .ok st' => .ok ((List.finRange maxTrackedDeviceCount).foldl (devStep env) st')

/-- One iteration of the eye loop in `paintGL`:
`SetSurface` (viewport to eye size, enable multisampling, bind the render
framebuffer), `renderEye`, `UnsetSurface` (release the framebuffer and blit it
into the resolve framebuffer). -/
def eyePass (t : Trig) (st : WidgetState) (e : Eye) : Except Unit (List Ev) :=
  match st.eyeInfos e with
  | none => .error ()
  | some infos =>
    match renderEyeEvs t st e with
    | .error er => .error er
    | .ok revs =>
        .ok ([Ev.viewportEye e infos.width infos.height, Ev.enableMultisample, Ev.bindFB e]
          ++ revs ++ [Ev.releaseFB e, Ev.blitToResolve e])

/-- The submission loop of `paintGL`: for each eye, submit
`m_eyeInfos[eye]->Texture()` (the resolve framebuffer's texture) to the VR
compositor. -/
def submitEvs (st : WidgetState) : Except Unit (List Ev) :=
  match st.eyeInfos Eye.Left, st.eyeInfos Eye.Right with
  | some l, some r =>
      match l.resolveBuffer, r.resolveBuffer with
      | some rl, some rr => .ok [Ev.submit Eye.Left rl.tex, Ev.submit Eye.Right rr.tex]
      | _, _ => .error ()
  | _, _ => .error ()

/-- `COpenVROpenGLWidget::paintGL`.  When `m_vrSystem` is non-null: update the
positions, run the input/scene hooks, render and resolve both eyes, render the
mirror view (`renderEye(Right)` into the window viewport), submit both eye
textures, and schedule a repaint.  When `m_vrSystem` is null only the mirror
view is rendered — still an unconditional `renderEye(Right)`. -/
def paintGL (env : VREnv) (st : WidgetState) : Except Unit (List Ev × WidgetState) :=
  if st.vrSystem then
    match UpdatePositions env st with
    | .error er => .error er
    | .ok st' =>
      match eyePass env.trig st' Eye.Left, eyePass env.trig st' Eye.Right with
      | .ok pL, .ok pR =>
          match renderEyeEvs env.trig st' Eye.Right with
          | .error er => .error er
          | .ok mir =>
              match submitEvs st' with
              | .error er => .error er
              | .ok subs =>
                  .ok ([Ev.hookUpdateInputs, Ev.hookUpdateRendering] ++ pL ++ pR
                    ++ [Ev.viewportWindow, Ev.disableMultisample] ++ mir
                    ++ subs ++ [Ev.scheduleUpdate], st')
      | .error er, _ => .error er
      | _, .error er => .error er
  else
    match renderEyeEvs env.trig st Eye.Right with
    | .error er => .error er
    | .ok mir =>
        .ok ([Ev.viewportWindow, Ev.disableMultisample] ++ mir ++ [Ev.scheduleUpdate], st)

/-- Observable actions during `initializeGL` / `InitializeVR`. -/
inductive VrEv where
  | criticalDialog (msgTag : ℕ)
  | vrShutdownCall
  | initEyes
  | initControllers
  | initInputs
  | initRendering
deriving DecidableEq

/-- `COpenVROpenGLWidget::InitializeVR`: fail with a critical dialog when no
runtime is installed (tag 0), no headset is present (tag 1), `VR_Init` reports
an error (tag 2), or the compositor cannot be obtained (tag 3, additionally
shutting the runtime down).  Otherwise succeed with `m_vrSystem` non-null. -/
def InitializeVR (env : VREnv) (st : WidgetState) : Bool × WidgetState × List VrEv :=
  if !env.runtimeInstalled then
    (false, st, [VrEv.criticalDialog 0])
  else if !env.hmdPresent then
    (false, st, [VrEv.criticalDialog 1])
  else
    match env.vrInitError with
    | some _ => (false, { st with vrSystem := false }, [VrEv.criticalDialog 2])
    | none =>
      if !env.compositorOk then
        (false, { st with vrSystem := false }, [VrEv.criticalDialog 3, VrEv.vrShutdownCall])
      else
        (true, { st with vrSystem := true }, [])

/-- `COpenVROpenGLWidget::InitializeEyesRendering`: query the recommended
render-target size and construct a `CEyeInfos` per eye; return the conjunction
of both `IsValid()` results. -/
def InitializeEyesRendering (env : VREnv) (st : WidgetState) : Bool × WidgetState :=
  let ei := mkCEyeInfos env.gl env.recommendedWidth env.recommendedHeight
  (ei.IsValid && ei.IsValid, { st with eyeInfos := fun _ => some ei })

/-- The body of the device loop of `InitializeControllers` for one device
index: skip non-controller classes; otherwise load the render model named by
the SDK into the hand slot selected by `roleHand` and set its show flag. -/
def ctrlStepInit (env : VREnv) (cs : Eye → SControllerInfos) (d : DeviceIx) :
    Eye → SControllerInfos :=
  if env.deviceClass d = TrackedDeviceClass.Controller then
    let h := roleHand env d
    Function.update cs h
      ⟨(cs h).rmat4Pose, env.loadModel (env.renderModelName d), true⟩
  else
    cs

/-- `COpenVROpenGLWidget::InitializeControllers`: wait for poses, run the
device loop, call the `InitializeInputs` hook, and return true
unconditionally. -/
def InitializeControllers (env : VREnv) (st : WidgetState) :
    Bool × WidgetState × List VrEv :=
  (true,
   { st with controllers := (List.finRange maxTrackedDeviceCount).foldl (ctrlStepInit env) st.controllers },
   [VrEv.initInputs])

/-- `COpenVROpenGLWidget::initializeGL`: initialize VR and return early on
failure; otherwise initialize the eyes (returning early on failure), the
controllers and the scene-rendering hook. -/
def initializeGL (env : VREnv) (st : WidgetState) : WidgetState × List VrEv :=
  let r1 := InitializeVR env st
  if !r1.1 then
    (r1.2.1, r1.2.2)
  else
    let r2 := InitializeEyesRendering env r1.2.1
    if !r2.1 then
      (r2.2, r1.2.2 ++ [VrEv.initEyes])
    else
      let r3 := InitializeControllers env r2.2
      (r3.2.1, r1.2.2 ++ [VrEv.initEyes, VrEv.initControllers] ++ r3.2.2 ++ [VrEv.initRendering])

/-- The eye infos after the eye loop of `UpdatePositions`: view set to the
inverted eye-to-head transform, projection set to the converted SDK projection
matrix at `NEAR_CLIP` / `FAR_CLIP`. -/
def updatedEye (env : VREnv) (e : Eye) (i : CEyeInfos) : CEyeInfos :=
  { i with
    view := qInverted (vrMatrixToQt34 (env.eyeToHead e))
    projection := vrMatrixToQt44 (env.projectionMat e NEAR_CLIP FAR_CLIP) }

/-- A trigonometry instance satisfying the Pythagorean identity (the one of a
zero-rotation world), used to instantiate theorems on concrete inputs. -/
def sampleTrig : Trig := ⟨fun _ => 1, fun _ => 0, fun q => q⟩

/-- A concrete identity 3x4 SDK matrix. -/
def idHmd34 : HmdMatrix34 := ⟨fun i j => if i.val = j.val then 1 else 0⟩

/-- A concrete identity 4x4 SDK matrix. -/
def idHmd44 : HmdMatrix44 := ⟨fun i j => if i.val = j.val then 1 else 0⟩

/-- A concrete 3x4 SDK matrix with pairwise distinct entries. -/
def rowMat34 : HmdMatrix34 := ⟨fun i j => (i.val : ℚ) * 4 + (j.val : ℚ)⟩

/-- A concrete 4x4 SDK matrix whose last row is `(0, 0, 0, 1)`. -/
def affineMat44 : HmdMatrix44 :=
  ⟨fun i j =>
    if i.val = 3 then (if j.val = 3 then 1 else 0)
    else (i.val : ℚ) * 4 + (j.val : ℚ)⟩

/-- A concrete GL runtime where every framebuffer creation succeeds and the
resolve-format framebuffers get texture id 2. -/
def sampleGL : GLEnv :=
  ⟨fun f w h => ⟨f, w, h, true, if f.samples = 0 then 2 else 1⟩⟩

/-- A concrete SDK environment: runtime installed, headset present, successful
initialization, the HMD at device index 0 and one left-hand controller at
device index 1. -/
def sampleEnv : VREnv :=
  { runtimeInstalled := true
    hmdPresent := true
    vrInitError := none
    compositorOk := true
    recommendedWidth := 4
    recommendedHeight := 4
    eyeToHead := fun _ => idHmd34
    projectionMat := fun _ _ _ => idHmd44
    poseValid := fun _ => true
    devicePose := fun _ => idHmd34
    deviceClass := fun d =>
      if d = 0 then TrackedDeviceClass.HMD
      else if d = 1 then TrackedDeviceClass.Controller
      else TrackedDeviceClass.Invalid
    controllerRole := fun d =>
      if d = 1 then TrackedControllerRole.LeftHand else TrackedControllerRole.Invalid
    renderModelName := fun _ => "vr_controller"
    loadModel := fun n => some ⟨n⟩
    gl := sampleGL
    trig := sampleTrig }

/-- The eye infos built by `sampleGL` at the recommended size of `sampleEnv`. -/
def sampleEyeInfos : CEyeInfos := mkCEyeInfos sampleGL 4 4

/-- A widget state after successful VR and eye initialization. -/
def sampleReadyState : WidgetState :=
  { initialWidgetState with
      vrSystem := true
      eyeInfos := fun _ => some sampleEyeInfos }

/-- A widget state with eye infos created but no VR system (mirror-only). -/
def sampleMirrorState : WidgetState :=
  { initialWidgetState with
      eyeInfos := fun _ => some sampleEyeInfos }

@[simp] theorem qMat4_00 (a b c d e f g h i j k l m n o p : ℚ) :
    qMat4 a b c d e f g h i j k l m n o p 0 0 = a := rfl

@[simp] theorem qMat4_01 (a b c d e f g h i j k l m n o p : ℚ) :
    qMat4 a b c d e f g h i j k l m n o p 0 1 = b := rfl

@[simp] theorem qMat4_02 (a b c d e f g h i j k l m n o p : ℚ) :
    qMat4 a b c d e f g h i j k l m n o p 0 2 = c := rfl

@[simp] theorem qMat4_03 (a b c d e f g h i j k l m n o p : ℚ) :
    qMat4 a b c d e f g h i j k l m n o p 0 3 = d := rfl

@[simp] theorem qMat4_10 (a b c d e f g h i j k l m n o p : ℚ) :
    qMat4 a b c d e f g h i j k l m n o p 1 0 = e := rfl

@[simp] theorem qMat4_11 (a b c d e f g h i j k l m n o p : ℚ) :
    qMat4 a b c d e f g h i j k l m n o p 1 1 = f := rfl

@[simp] theorem qMat4_12 (a b c d e f g h i j k l m n o p : ℚ) :
    qMat4 a b c d e f g h i j k l m n o p 1 2 = g := rfl

@[simp] theorem qMat4_13 (a b c d e f g h i j k l m n o p : ℚ) :
    qMat4 a b c d e f g h i j k l m n o p 1 3 = h := rfl

@[simp] theorem qMat4_20 (a b c d e f g h i j k l m n o p : ℚ) :
    qMat4 a b c d e f g h i j k l m n o p 2 0 = i := rfl

@[simp] theorem qMat4_21 (a b c d e f g h i j k l m n o p : ℚ) :
    qMat4 a b c d e f g h i j k l m n o p 2 1 = j := rfl

@[simp] theorem qMat4_22 (a b c d e f g h i j k l m n o p : ℚ) :
    qMat4 a b c d e f g h i j k l m n o p 2 2 = k := rfl

@[simp] theorem qMat4_23 (a b c d e f g h i j k l m n o p : ℚ) :
    qMat4 a b c d e f g h i j k l m n o p 2 3 = l := rfl

@[simp] theorem qMat4_30 (a b c d e f g h i j k l m n o p : ℚ) :
    qMat4 a b c d e f g h i j k l m n o p 3 0 = m := rfl

@[simp] theorem qMat4_31 (a b c d e f g h i j k l m n o p : ℚ) :
    qMat4 a b c d e f g h i j k l m n o p 3 1 = n := rfl

@[simp] theorem qMat4_32 (a b c d e f g h i j k l m n o p : ℚ) :
    qMat4 a b c d e f g h i j k l m n o p 3 2 = o := rfl

@[simp] theorem qMat4_33 (a b c d e f g h i j k l m n o p : ℚ) :
    qMat4 a b c d e f g h i j k l m n o p 3 3 = p := rfl

/-- When the determinant is nonzero, `qInverted` is a genuine left inverse. -/
theorem qInverted_mul_self (A : Q4) (hA : A.det ≠ 0) : qInverted A * A = 1 := by
  unfold qInverted
  rw [if_neg hA, Matrix.smul_mul, Matrix.adjugate_mul, smul_smul,
    inv_mul_cancel₀ hA, one_smul]

/-- Qt's quaternion-to-matrix route agrees with mathematical quaternion
conjugation on unit quaternions. -/
theorem mulVec3_rotationMatrix_eq_quat_conj (q : Quat) (hq : quatNormSq q = 1) (v : V3) :
    mulVec3 (rotationMatrixOfQuat q) v = rotateVectorByQuat q v := by
  have hw : (rotationMatrixOfQuat q) 3 0 * v.x + (rotationMatrixOfQuat q) 3 1 * v.y +
      (rotationMatrixOfQuat q) 3 2 * v.z + (rotationMatrixOfQuat q) 3 3 = 1 := by
    show (0 : ℚ) * v.x + 0 * v.y + 0 * v.z + 1 = 1
    ring
  unfold mulVec3
  rw [if_pos hw]
  unfold quatNormSq at hq
  ext
  · show (1 - 2*(q.y^2+q.z^2)) * v.x + (2*(q.x*q.y - q.z*q.w)) * v.y
        + (2*(q.x*q.z + q.y*q.w)) * v.z + 0
      = (quatMul (quatMul q ⟨0, v.x, v.y, v.z⟩) (quatConj q)).x
    unfold quatMul quatConj
    dsimp only
    linear_combination (-v.x) * hq
  · show (2*(q.x*q.y + q.z*q.w)) * v.x + (1 - 2*(q.x^2+q.z^2)) * v.y
        + (2*(q.y*q.z - q.x*q.w)) * v.z + 0
      = (quatMul (quatMul q ⟨0, v.x, v.y, v.z⟩) (quatConj q)).y
    unfold quatMul quatConj
    dsimp only
    linear_combination (-v.y) * hq
  · show (2*(q.x*q.z - q.y*q.w)) * v.x + (2*(q.y*q.z + q.x*q.w)) * v.y
        + (1 - 2*(q.x^2+q.y^2)) * v.z + 0
      = (quatMul (quatMul q ⟨0, v.x, v.y, v.z⟩) (quatConj q)).z
    unfold quatMul quatConj
    dsimp only
    linear_combination (-v.z) * hq

/-- The squared norm of Qt's Euler-angle quaternion factors through the three
Pythagorean expressions of the half-angles. -/
theorem normSq_fromEulerAngles (t : Trig) (pitch yaw roll : ℚ) :
    quatNormSq (fromEulerAngles t pitch yaw roll)
      = (t.cos (t.degToRad yaw * (1 / 2)) ^ 2 + t.sin (t.degToRad yaw * (1 / 2)) ^ 2)
        * (t.cos (t.degToRad roll * (1 / 2)) ^ 2 + t.sin (t.degToRad roll * (1 / 2)) ^ 2)
        * (t.cos (t.degToRad pitch * (1 / 2)) ^ 2 + t.sin (t.degToRad pitch * (1 / 2)) ^ 2) := by
  unfold quatNormSq fromEulerAngles
  dsimp only
  ring

theorem devStep_eyeInfos (env : VREnv) (st : WidgetState) (d : DeviceIx) :
    (devStep env st d).eyeInfos = st.eyeInfos := by
  unfold devStep
  split
  · cases env.deviceClass d <;> rfl
  · rfl

theorem foldl_devStep_eyeInfos (env : VREnv) (l : List DeviceIx) (st : WidgetState) :
    (l.foldl (devStep env) st).eyeInfos = st.eyeInfos := by
  induction l generalizing st with
  | nil => rfl
  | cons a l ih => rw [List.foldl_cons, ih, devStep_eyeInfos]

theorem devStep_controllers_aux (env : VREnv) (st : WidgetState) (d : DeviceIx) (h : Eye) :
    ((devStep env st d).controllers h).pRenderModel = (st.controllers h).pRenderModel
    ∧ ((devStep env st d).controllers h).bShowController = (st.controllers h).bShowController := by
  unfold devStep
  split
  · cases env.deviceClass d
    case Controller =>
      dsimp only
      by_cases hh : h = roleHand env d
      · subst hh
        rw [Function.update_same]
        exact ⟨rfl, rfl⟩
      · rw [Function.update_noteq hh]
        exact ⟨rfl, rfl⟩
    all_goals exact ⟨rfl, rfl⟩
  · exact ⟨rfl, rfl⟩

theorem devStep_preserves_hmdInv (env : VREnv) (st : WidgetState) (d : DeviceIx)
    (hd : d ≠ trackedDeviceIndexHmd)
    (h1 : st.matrixDevicePose trackedDeviceIndexHmd
        = vrMatrixToQt34 (env.devicePose trackedDeviceIndexHmd))
    (h2 : st.hmdPose = qInverted (vrMatrixToQt34 (env.devicePose trackedDeviceIndexHmd))) :
    (devStep env st d).matrixDevicePose trackedDeviceIndexHmd
        = vrMatrixToQt34 (env.devicePose trackedDeviceIndexHmd)
    ∧ (devStep env st d).hmdPose
        = qInverted (vrMatrixToQt34 (env.devicePose trackedDeviceIndexHmd)) := by
  unfold devStep
  split
  · cases env.deviceClass d
    case HMD =>
      dsimp only
      rw [Function.update_noteq (Ne.symm hd), h1]
      exact ⟨rfl, rfl⟩
    all_goals
      dsimp only
      exact ⟨by rw [Function.update_noteq (Ne.symm hd)]; exact h1, h2⟩
  · exact ⟨h1, h2⟩

theorem devStep_hmd_establishes (env : VREnv) (st : WidgetState)
    (h0c : env.deviceClass trackedDeviceIndexHmd = TrackedDeviceClass.HMD)
    (h0v : env.poseValid trackedDeviceIndexHmd = true) :
    (devStep env st trackedDeviceIndexHmd).matrixDevicePose trackedDeviceIndexHmd
        = vrMatrixToQt34 (env.devicePose trackedDeviceIndexHmd)
    ∧ (devStep env st trackedDeviceIndexHmd).hmdPose
        = qInverted (vrMatrixToQt34 (env.devicePose trackedDeviceIndexHmd)) := by
  unfold devStep
  rw [if_pos h0v, h0c]
  dsimp only
  rw [Function.update_same]
  exact ⟨rfl, rfl⟩

theorem foldl_devStep_hmd (env : VREnv) (l : List DeviceIx)
    (hl : ∀ d ∈ l, d ≠ trackedDeviceIndexHmd) (st : WidgetState)
    (h1 : st.matrixDevicePose trackedDeviceIndexHmd
        = vrMatrixToQt34 (env.devicePose trackedDeviceIndexHmd))
    (h2 : st.hmdPose = qInverted (vrMatrixToQt34 (env.devicePose trackedDeviceIndexHmd))) :
    (l.foldl (devStep env) st).matrixDevicePose trackedDeviceIndexHmd
        = vrMatrixToQt34 (env.devicePose trackedDeviceIndexHmd)
    ∧ (l.foldl (devStep env) st).hmdPose
        = qInverted (vrMatrixToQt34 (env.devicePose trackedDeviceIndexHmd)) := by
  induction l generalizing st with
  | nil => exact ⟨h1, h2⟩
  | cons a l ih =>
      rw [List.foldl_cons]
      have ha := devStep_preserves_hmdInv env st a (hl a (List.mem_cons_self a l)) h1 h2
      exact ih (fun d hd => hl d (List.mem_cons_of_mem a hd)) _ ha.1 ha.2

theorem foldl_finRange_hmdPose (env : VREnv) (st : WidgetState)
    (h0c : env.deviceClass trackedDeviceIndexHmd = TrackedDeviceClass.HMD)
    (h0v : env.poseValid trackedDeviceIndexHmd = true) :
    ((List.finRange maxTrackedDeviceCount).foldl (devStep env) st).hmdPose
      = qInverted (vrMatrixToQt34 (env.devicePose trackedDeviceIndexHmd)) := by
  have hsplit : List.finRange maxTrackedDeviceCount
      = trackedDeviceIndexHmd :: (List.finRange 63).map Fin.succ :=
    List.finRange_succ_eq_map 63
  rw [hsplit, List.foldl_cons]
  have hest := devStep_hmd_establishes env st h0c h0v
  refine (foldl_devStep_hmd env _ ?_ _ hest.1 hest.2).2
  intro d hd
  rcases List.mem_map.mp hd with ⟨a, _, rfl⟩
  exact Fin.succ_ne_zero a

theorem foldl_devStep_controllers (env : VREnv) (l : List DeviceIx) (st : WidgetState) (h : Eye) :
    ((l.foldl (devStep env) st).controllers h).pRenderModel = (st.controllers h).pRenderModel
    ∧ ((l.foldl (devStep env) st).controllers h).bShowController
        = (st.controllers h).bShowController := by
  induction l generalizing st with
  | nil => exact ⟨rfl, rfl⟩
  | cons a l ih =>
      rw [List.foldl_cons]
      have ha := devStep_controllers_aux env st a h
      have := ih (devStep env st a)
      exact ⟨this.1.trans ha.1, this.2.trans ha.2⟩

theorem setEyeTransforms_ok (env : VREnv) (st : WidgetState) (l r : CEyeInfos)
    (hL : st.eyeInfos Eye.Left = some l) (hR : st.eyeInfos Eye.Right = some r) :
    setEyeTransforms env st = .ok { st with
      eyeInfos := fun e =>
        match e with
        | Eye.Left => some { l with
            view := qInverted (vrMatrixToQt34 (env.eyeToHead Eye.Left))
            projection := vrMatrixToQt44 (env.projectionMat Eye.Left NEAR_CLIP FAR_CLIP) }
        | Eye.Right => some { r with
            view := qInverted (vrMatrixToQt34 (env.eyeToHead Eye.Right))
            projection := vrMatrixToQt44 (env.projectionMat Eye.Right NEAR_CLIP FAR_CLIP) } } := by
  unfold setEyeTransforms
  rw [hL, hR]

theorem handDraw_shown (c : SControllerInfos) (m : Q4) (h : Eye) (mo : CRenderModel)
    (hb : c.bShowController = true) (hmod : c.pRenderModel = some mo) :
    handDraw c m h = .ok [Ev.drawController h (m * c.rmat4Pose)] := by
  simp [handDraw, hb, hmod]

theorem handDraw_hidden (c : SControllerInfos) (m : Q4) (h : Eye)
    (hb : c.bShowController = false) :
    handDraw c m h = .ok [] := by
  simp [handDraw, hb]

theorem handDraw_exists (c : SControllerInfos) (m : Q4) (h : Eye)
    (hsafe : c.bShowController = true → c.pRenderModel ≠ none) :
    ∃ dh, handDraw c m h = .ok dh
      ∧ (c.bShowController = true → dh = [Ev.drawController h (m * c.rmat4Pose)])
      ∧ (c.bShowController = false → dh = [])
      ∧ ∀ x ∈ dh, ∃ mv, x = Ev.drawController h mv := by
  cases hb : c.bShowController
  · exact ⟨[], handDraw_hidden c m h hb, by simp, fun _ => rfl, by simp⟩
  · rcases hmod : c.pRenderModel with _ | mo
    · exact absurd hmod (hsafe hb)
    · refine ⟨[Ev.drawController h (m * c.rmat4Pose)], handDraw_shown c m h mo hb hmod,
        fun _ => rfl, by simp, ?_⟩
      intro x hx
      rw [List.mem_singleton] at hx
      exact ⟨m * c.rmat4Pose, hx⟩

theorem renderEyeEvs_ok (t : Trig) (st : WidgetState) (e : Eye) (i : CEyeInfos)
    (hi : st.eyeInfos e = some i)
    (hsafe : ∀ h, (st.controllers h).bShowController = true
        → (st.controllers h).pRenderModel ≠ none) :
    ∃ dL dR, renderEyeEvs t st e
        = .ok ([Ev.clearBuffers] ++ dL ++ dR
            ++ [Ev.renderScene e ((i.view * st.hmdPose) * GetCameraMatrix t st) i.projection])
      ∧ handDraw (st.controllers Eye.Left) (i.projection * (i.view * st.hmdPose)) Eye.Left = .ok dL
      ∧ handDraw (st.controllers Eye.Right) (i.projection * (i.view * st.hmdPose)) Eye.Right = .ok dR := by
  obtain ⟨dL, hdL, -, -, -⟩ :=
    handDraw_exists (st.controllers Eye.Left) (i.projection * (i.view * st.hmdPose)) Eye.Left
      (hsafe Eye.Left)
  obtain ⟨dR, hdR, -, -, -⟩ :=
    handDraw_exists (st.controllers Eye.Right) (i.projection * (i.view * st.hmdPose)) Eye.Right
      (hsafe Eye.Right)
  refine ⟨dL, dR, ?_, hdL, hdR⟩
  unfold renderEyeEvs
  rw [hi]
  dsimp only
  rw [hdL, hdR]

theorem UpdatePositions_ok (env : VREnv) (st st1 : WidgetState)
    (hset : setEyeTransforms env st = .ok st1) :
    UpdatePositions env st
      = .ok ((List.finRange maxTrackedDeviceCount).foldl (devStep env) st1) := by
  unfold UpdatePositions
  rw [hset]

theorem eyePass_ok (t : Trig) (st : WidgetState) (e : Eye) (i : CEyeInfos) (revs : List Ev)
    (hi : st.eyeInfos e = some i) (hrevs : renderEyeEvs t st e = .ok revs) :
    eyePass t st e
      = .ok ([Ev.viewportEye e i.width i.height, Ev.enableMultisample, Ev.bindFB e]
          ++ revs ++ [Ev.releaseFB e, Ev.blitToResolve e]) := by
  unfold eyePass
  rw [hi]
  dsimp only
  rw [hrevs]

theorem submitEvs_ok (st : WidgetState) (l r : CEyeInfos) (rbl rbr : FBO)
    (hL : st.eyeInfos Eye.Left = some l) (hR : st.eyeInfos Eye.Right = some r)
    (hrl : l.resolveBuffer = some rbl) (hrr : r.resolveBuffer = some rbr) :
    submitEvs st = .ok [Ev.submit Eye.Left rbl.tex, Ev.submit Eye.Right rbr.tex] := by
  unfold submitEvs
  rw [hL, hR]
  dsimp only
  rw [hrl, hrr]

theorem paintGL_active_eq (env : VREnv) (st st' : WidgetState)
    (pL pR mir subs : List Ev)
    (hvr : st.vrSystem = true)
    (hup : UpdatePositions env st = .ok st')
    (h1 : eyePass env.trig st' Eye.Left = .ok pL)
    (h2 : eyePass env.trig st' Eye.Right = .ok pR)
    (h3 : renderEyeEvs env.trig st' Eye.Right = .ok mir)
    (h4 : submitEvs st' = .ok subs) :
    paintGL env st
      = .ok ([Ev.hookUpdateInputs, Ev.hookUpdateRendering] ++ pL ++ pR
          ++ [Ev.viewportWindow, Ev.disableMultisample] ++ mir
          ++ subs ++ [Ev.scheduleUpdate], st') := by
  simp only [paintGL, hvr, hup, h1, h2, h3, h4, if_true]

theorem paintGL_inactive_eq (env : VREnv) (st : WidgetState) (mir : List Ev)
    (hvr : st.vrSystem = false)
    (h3 : renderEyeEvs env.trig st Eye.Right = .ok mir) :
    paintGL env st
      = .ok ([Ev.viewportWindow, Ev.disableMultisample] ++ mir ++ [Ev.scheduleUpdate], st) := by
  simp only [paintGL, hvr, h3, Bool.false_eq_true, if_false]

theorem handDraw_no_submit (c : SControllerInfos) (m : Q4) (h : Eye) (dh : List Ev)
    (hd : handDraw c m h = .ok dh) : ∀ x ∈ dh, x.isSubmit = false := by
  unfold handDraw at hd
  split at hd
  · split at hd
    · exact absurd hd (by simp)
    · cases hd
      simp [Ev.isSubmit]
  · cases hd
    simp

theorem renderEyeEvs_no_submit (t : Trig) (st : WidgetState) (e : Eye) (evs : List Ev)
    (hevs : renderEyeEvs t st e = .ok evs) : ∀ x ∈ evs, x.isSubmit = false := by
  unfold renderEyeEvs at hevs
  rcases hi : st.eyeInfos e with _ | infos <;> rw [hi] at hevs
  · exact absurd hevs (by simp)
  · dsimp only at hevs
    rcases hdL : handDraw (st.controllers Eye.Left)
        (infos.projection * (infos.view * st.hmdPose)) Eye.Left with erL | dL <;>
      rw [hdL] at hevs
    · exact absurd hevs (by simp)
    · rcases hdR : handDraw (st.controllers Eye.Right)
          (infos.projection * (infos.view * st.hmdPose)) Eye.Right with erR | dR <;>
        rw [hdR] at hevs
      · exact absurd hevs (by simp)
      · cases hevs
        intro x hx
        rcases List.mem_append.mp hx with hx' | hx'
        · rcases List.mem_append.mp hx' with hx'' | hx''
          · rcases List.mem_append.mp hx'' with hx3 | hx3
            · rw [List.mem_singleton] at hx3
              subst hx3
              rfl
            · exact handDraw_no_submit _ _ _ _ hdL x hx3
          · exact handDraw_no_submit _ _ _ _ hdR x hx''
        · rw [List.mem_singleton] at hx'
          subst hx'
          rfl

theorem eyePass_no_submit (t : Trig) (st : WidgetState) (e : Eye) (evs : List Ev)
    (hevs : eyePass t st e = .ok evs) : ∀ x ∈ evs, x.isSubmit = false := by
  unfold eyePass at hevs
  rcases hi : st.eyeInfos e with _ | infos <;> rw [hi] at hevs
  · exact absurd hevs (by simp)
  · dsimp only at hevs
    rcases hre : renderEyeEvs t st e with er | revs <;> rw [hre] at hevs
    · exact absurd hevs (by simp)
    · cases hevs
      intro x hx
      rcases List.mem_append.mp hx with hx' | hx'
      · rcases List.mem_append.mp hx' with hx'' | hx''
        · fin_cases hx'' <;> rfl
        · exact renderEyeEvs_no_submit _ _ _ _ hre x hx''
      · fin_cases hx' <;> rfl

/-- C2: the 3x4 overload of `vrMatrixToQt` copies the three input rows and
appends the row `(0, 0, 0, 1)`; the 4x4 overload copies all sixteen entries in
row-major order; consequently the two overloads agree on any 4x4 matrix whose
last row is `(0, 0, 0, 1)`, restricted to its top three rows. -/
theorem claim_C2 (m34 : HmdMatrix34) (m44 : HmdMatrix44) :
    (∀ (i : Fin 3) (j : Fin 4), vrMatrixToQt34 m34 i.castSucc j = m34.m i j)
    ∧ (vrMatrixToQt34 m34 3 0 = 0 ∧ vrMatrixToQt34 m34 3 1 = 0
        ∧ vrMatrixToQt34 m34 3 2 = 0 ∧ vrMatrixToQt34 m34 3 3 = 1)
    ∧ (∀ (i j : Fin 4), vrMatrixToQt44 m44 i j = m44.m i j)
    ∧ (m44.m 3 0 = 0 → m44.m 3 1 = 0 → m44.m 3 2 = 0 → m44.m 3 3 = 1
        → vrMatrixToQt44 m44 = vrMatrixToQt34 m44.topThreeRows) := by
  refine ⟨?_, ⟨rfl, rfl, rfl, rfl⟩, ?_, ?_⟩
  · intro i j
    fin_cases i <;> fin_cases j <;> rfl
  · intro i j
    fin_cases i <;> fin_cases j <;> rfl
  · intro h0 h1 h2 h3
    ext i j
    fin_cases i <;> fin_cases j <;>
      simp [vrMatrixToQt44, vrMatrixToQt34, HmdMatrix44.topThreeRows, h0, h1, h2, h3]

/-- Witness for C2 at concrete matrices. -/
theorem claim_C2_witness :
    (vrMatrixToQt34 rowMat34 ((1 : Fin 3).castSucc) 2 = rowMat34.m 1 2)
    ∧ (affineMat44.m 3 0 = 0 ∧ affineMat44.m 3 1 = 0
        ∧ affineMat44.m 3 2 = 0 ∧ affineMat44.m 3 3 = 1)
    ∧ vrMatrixToQt44 affineMat44 = vrMatrixToQt34 affineMat44.topThreeRows := by
  have h := claim_C2 rowMat34 affineMat44
  have e0 : affineMat44.m 3 0 = 0 := by decide
  have e1 : affineMat44.m 3 1 = 0 := by decide
  have e2 : affineMat44.m 3 2 = 0 := by decide
  have e3 : affineMat44.m 3 3 = 1 := by decide
  exact ⟨h.1 1 2, ⟨e0, e1, e2, e3⟩, h.2.2.2 e0 e1 e2 e3⟩

/-- C4: each eye gets exactly the two framebuffers, created at the recommended
render-target size: the render framebuffer with depth attachment, `GL_RGBA8`
and 4 samples, and the resolve framebuffer with `GL_RGBA8` and 0 samples;
`IsValid` holds iff both framebuffers exist and are valid; and
`InitializeEyesRendering` returns true iff both eyes' infos are valid. -/
theorem claim_C4 (gl : GLEnv) (w hgt : ℕ) (env : VREnv) (st : WidgetState) (e : CEyeInfos) :
    ((mkCEyeInfos gl w hgt).frameBuffer = some (gl.makeFBO ⟨true, GL_RGBA8, 4⟩ w hgt)
      ∧ (mkCEyeInfos gl w hgt).resolveBuffer = some (gl.makeFBO ⟨false, GL_RGBA8, 0⟩ w hgt))
    ∧ (e.IsValid = true ↔
        ((∃ f, e.frameBuffer = some f ∧ f.valid = true)
          ∧ (∃ g, e.resolveBuffer = some g ∧ g.valid = true)))
    ∧ (∀ ey, (InitializeEyesRendering env st).2.eyeInfos ey
        = some (mkCEyeInfos env.gl env.recommendedWidth env.recommendedHeight))
    ∧ ((InitializeEyesRendering env st).1 = true ↔
        (∀ ey, ∃ i, (InitializeEyesRendering env st).2.eyeInfos ey = some i
          ∧ i.IsValid = true)) := by
  refine ⟨⟨rfl, rfl⟩, ?_, fun ey => rfl, ?_⟩
  · rcases hf : e.frameBuffer with _ | f <;> rcases hr : e.resolveBuffer with _ | g <;>
      simp [CEyeInfos.IsValid, hf, hr]
  · constructor
    · intro hv ey
      refine ⟨mkCEyeInfos env.gl env.recommendedWidth env.recommendedHeight, rfl, ?_⟩
      simpa [InitializeEyesRendering, Bool.and_self] using hv
    · intro hall
      obtain ⟨i, hi, hvi⟩ := hall Eye.Left
      have : i = mkCEyeInfos env.gl env.recommendedWidth env.recommendedHeight :=
        (Option.some.inj hi).symm
      subst this
      simpa [InitializeEyesRendering, Bool.and_self] using hvi

/-- Witness for C4 at the sample GL runtime. -/
theorem claim_C4_witness :
    ((mkCEyeInfos sampleGL 4 4).frameBuffer = some (sampleGL.makeFBO ⟨true, GL_RGBA8, 4⟩ 4 4)
      ∧ (mkCEyeInfos sampleGL 4 4).resolveBuffer = some (sampleGL.makeFBO ⟨false, GL_RGBA8, 0⟩ 4 4))
    ∧ (sampleEyeInfos.IsValid = true ↔
        ((∃ f, sampleEyeInfos.frameBuffer = some f ∧ f.valid = true)
          ∧ (∃ g, sampleEyeInfos.resolveBuffer = some g ∧ g.valid = true)))
    ∧ (∀ ey, (InitializeEyesRendering sampleEnv initialWidgetState).2.eyeInfos ey
        = some (mkCEyeInfos sampleEnv.gl sampleEnv.recommendedWidth sampleEnv.recommendedHeight))
    ∧ ((InitializeEyesRendering sampleEnv initialWidgetState).1 = true ↔
        (∀ ey, ∃ i, (InitializeEyesRendering sampleEnv initialWidgetState).2.eyeInfos ey = some i
          ∧ i.IsValid = true)) :=
  claim_C4 sampleGL 4 4 sampleEnv initialWidgetState sampleEyeInfos

/-- C7: during controller initialization and during every positions update, a
device of class `Controller` (with, for updates, a valid pose) is assigned to
the `Left` hand slot iff the SDK reports role `LeftHand` and to the `Right`
slot in every other case; devices of other classes never modify the controller
slots. -/
theorem claim_C7 (env : VREnv) (st : WidgetState) (cs : Eye → SControllerInfos) (d : DeviceIx) :
    (env.deviceClass d = TrackedDeviceClass.Controller →
        ctrlStepInit env cs d
          = Function.update cs (roleHand env d)
              ⟨(cs (roleHand env d)).rmat4Pose, env.loadModel (env.renderModelName d), true⟩)
    ∧ (roleHand env d = Eye.Left ↔ env.controllerRole d = TrackedControllerRole.LeftHand)
    ∧ (env.deviceClass d ≠ TrackedDeviceClass.Controller → ctrlStepInit env cs d = cs)
    ∧ (env.poseValid d = true → env.deviceClass d = TrackedDeviceClass.Controller →
        (devStep env st d).controllers
          = Function.update st.controllers (roleHand env d)
              { st.controllers (roleHand env d) with
                  rmat4Pose := vrMatrixToQt34 (env.devicePose d) })
    ∧ (env.deviceClass d ≠ TrackedDeviceClass.Controller →
        (devStep env st d).controllers = st.controllers)
    ∧ (env.poseValid d = false → (devStep env st d).controllers = st.controllers) := by
  refine ⟨?_, ?_, ?_, ?_, ?_, ?_⟩
  · intro hc
    unfold ctrlStepInit
    rw [if_pos hc]
  · unfold roleHand
    split
    · simp [*]
    · simp only [*, iff_false]
      intro he
      exact absurd he (by decide)
  · intro hc
    unfold ctrlStepInit
    rw [if_neg hc]
  · intro hv hc
    unfold devStep
    rw [if_pos hv, hc]
  · intro hc
    unfold devStep
    split
    · cases hcl : env.deviceClass d <;> first | exact absurd hcl hc | rfl
    · rfl
  · intro hv
    unfold devStep
    rw [if_neg (by simp [hv])]

/-- Witness for C7: device 1 of the sample environment is a left-hand
controller with a valid pose, device 0 is the HMD. -/
theorem claim_C7_witness :
    (sampleEnv.deviceClass 1 = TrackedDeviceClass.Controller)
    ∧ (sampleEnv.poseValid 1 = true)
    ∧ (sampleEnv.deviceClass 0 ≠ TrackedDeviceClass.Controller)
    ∧ ctrlStepInit sampleEnv initialWidgetState.controllers 1
        = Function.update initialWidgetState.controllers (roleHand sampleEnv 1)
            ⟨(initialWidgetState.controllers (roleHand sampleEnv 1)).rmat4Pose,
             sampleEnv.loadModel (sampleEnv.renderModelName 1), true⟩
    ∧ (devStep sampleEnv initialWidgetState 1).controllers
        = Function.update initialWidgetState.controllers (roleHand sampleEnv 1)
            { initialWidgetState.controllers (roleHand sampleEnv 1) with
                rmat4Pose := vrMatrixToQt34 (sampleEnv.devicePose 1) }
    ∧ ctrlStepInit sampleEnv initialWidgetState.controllers 0
        = initialWidgetState.controllers := by
  have h1 := claim_C7 sampleEnv initialWidgetState initialWidgetState.controllers 1
  have h0 := claim_C7 sampleEnv initialWidgetState initialWidgetState.controllers 0
  have hc1 : sampleEnv.deviceClass 1 = TrackedDeviceClass.Controller := by decide
  have hv1 : sampleEnv.poseValid 1 = true := rfl
  have hc0 : sampleEnv.deviceClass 0 ≠ TrackedDeviceClass.Controller := by decide
  exact ⟨hc1, hv1, hc0, h1.1 hc1, h1.2.2.2.1 hv1 hc1, h0.2.2.1 hc0⟩

/-- C9: after any sequence of `TranslateEyes` / `RotateEyes` calls,
`ResetEyesPositions` makes `GetTranslations` return `(0, 0, 0)` and
`ResetEyesRotations` makes `GetRotations` return `(0, 180, 0)` — the values a
freshly constructed widget reports — so both resets together restore the
initial camera state, and the post-reset rotation is `(0, 180, 0)`, not
`(0, 0, 0)`. -/
theorem claim_C9 (t : Trig) (ops : List CamOp) (st : WidgetState) :
    GetTranslations (ResetEyesPositions (applyCamOps t st ops)) = ⟨0, 0, 0⟩
    ∧ GetRotations (ResetEyesRotations (applyCamOps t st ops)) = ⟨0, 180, 0⟩
    ∧ GetTranslations initialWidgetState = ⟨0, 0, 0⟩
    ∧ GetRotations initialWidgetState = ⟨0, 180, 0⟩
    ∧ GetRotations (ResetEyesRotations (applyCamOps t st ops)) ≠ (⟨0, 0, 0⟩ : V3)
    ∧ (ResetEyesRotations (ResetEyesPositions (applyCamOps t st ops))).cameraTranslation
        = initialWidgetState.cameraTranslation
    ∧ (ResetEyesRotations (ResetEyesPositions (applyCamOps t st ops))).cameraRotations
        = initialWidgetState.cameraRotations := by
  refine ⟨rfl, rfl, rfl, rfl, ?_, rfl, rfl⟩
  intro h
  have : (180 : ℚ) = 0 := congrArg V3.y h
  norm_num at this

/-- Witness for C9: instantiation on a concrete interaction sequence. -/
theorem claim_C9_witness :
    GetTranslations (ResetEyesPositions
        (applyCamOps sampleTrig initialWidgetState [CamOp.translate 1 2 3, CamOp.rotate 4 5 6]))
      = ⟨0, 0, 0⟩
    ∧ GetRotations (ResetEyesRotations
        (applyCamOps sampleTrig initialWidgetState [CamOp.translate 1 2 3, CamOp.rotate 4 5 6]))
      = ⟨0, 180, 0⟩
    ∧ GetTranslations initialWidgetState = ⟨0, 0, 0⟩
    ∧ GetRotations initialWidgetState = ⟨0, 180, 0⟩
    ∧ GetRotations (ResetEyesRotations
        (applyCamOps sampleTrig initialWidgetState [CamOp.translate 1 2 3, CamOp.rotate 4 5 6]))
      ≠ (⟨0, 0, 0⟩ : V3)
    ∧ (ResetEyesRotations (ResetEyesPositions
        (applyCamOps sampleTrig initialWidgetState
          [CamOp.translate 1 2 3, CamOp.rotate 4 5 6]))).cameraTranslation
        = initialWidgetState.cameraTranslation
    ∧ (ResetEyesRotations (ResetEyesPositions
        (applyCamOps sampleTrig initialWidgetState
          [CamOp.translate 1 2 3, CamOp.rotate 4 5 6]))).cameraRotations
        = initialWidgetState.cameraRotations :=
  claim_C9 sampleTrig [CamOp.translate 1 2 3, CamOp.rotate 4 5 6] initialWidgetState

/-- C10: `TranslateEyes` adds to the stored translation the delta vector
rotated by the quaternion built from the current Euler rotation angles
(camera-local frame; shown against the specification-side conjugation
`rotateVectorByQuat`, assuming the Pythagorean identity for the three
half-angles actually used), leaving the rotation unchanged; `RotateEyes` adds
its angles componentwise, independently of the translation state. -/
theorem claim_C10 (t : Trig) (st : WidgetState) (dx dy dz yaw pitch roll : ℚ)
    (h1 : t.cos (t.degToRad st.cameraRotations.y * (1 / 2)) ^ 2
        + t.sin (t.degToRad st.cameraRotations.y * (1 / 2)) ^ 2 = 1)
    (h2 : t.cos (t.degToRad st.cameraRotations.z * (1 / 2)) ^ 2
        + t.sin (t.degToRad st.cameraRotations.z * (1 / 2)) ^ 2 = 1)
    (h3 : t.cos (t.degToRad st.cameraRotations.x * (1 / 2)) ^ 2
        + t.sin (t.degToRad st.cameraRotations.x * (1 / 2)) ^ 2 = 1) :
    (TranslateEyes t st dx dy dz).cameraTranslation
      = st.cameraTranslation
        + rotateVectorByQuat
            (fromEulerAngles t st.cameraRotations.x st.cameraRotations.y st.cameraRotations.z)
            ⟨dx, dy, dz⟩
    ∧ (TranslateEyes t st dx dy dz).cameraRotations = st.cameraRotations
    ∧ (RotateEyes st yaw pitch roll).cameraRotations
        = ⟨st.cameraRotations.x + yaw, st.cameraRotations.y + pitch,
           st.cameraRotations.z + roll⟩
    ∧ (RotateEyes st yaw pitch roll).cameraTranslation = st.cameraTranslation
    ∧ (∀ tr, (RotateEyes { st with cameraTranslation := tr } yaw pitch roll).cameraRotations
        = (RotateEyes st yaw pitch roll).cameraRotations) := by
  have hq : quatNormSq
      (fromEulerAngles t st.cameraRotations.x st.cameraRotations.y st.cameraRotations.z) = 1 := by
    rw [normSq_fromEulerAngles, h1, h2, h3]
    norm_num
  refine ⟨?_, rfl, rfl, rfl, fun tr => rfl⟩
  show st.cameraTranslation
      + mulVec3 (rotationMatrixOfQuat
          (fromEulerAngles t st.cameraRotations.x st.cameraRotations.y st.cameraRotations.z))
          ⟨dx, dy, dz⟩
    = _
  rw [mulVec3_rotationMatrix_eq_quat_conj _ hq]

/-- Witness for C10 at the sample trigonometry and the freshly-constructed
widget state. -/
theorem claim_C10_witness :
    (sampleTrig.cos (sampleTrig.degToRad initialWidgetState.cameraRotations.y * (1 / 2)) ^ 2
        + sampleTrig.sin (sampleTrig.degToRad initialWidgetState.cameraRotations.y * (1 / 2)) ^ 2
        = 1)
    ∧ ((TranslateEyes sampleTrig initialWidgetState 1 2 3).cameraTranslation
        = initialWidgetState.cameraTranslation
          + rotateVectorByQuat
              (fromEulerAngles sampleTrig initialWidgetState.cameraRotations.x
                initialWidgetState.cameraRotations.y initialWidgetState.cameraRotations.z)
              ⟨1, 2, 3⟩
      ∧ (TranslateEyes sampleTrig initialWidgetState 1 2 3).cameraRotations
          = initialWidgetState.cameraRotations
      ∧ (RotateEyes initialWidgetState 7 8 9).cameraRotations
          = ⟨initialWidgetState.cameraRotations.x + 7, initialWidgetState.cameraRotations.y + 8,
             initialWidgetState.cameraRotations.z + 9⟩
      ∧ (RotateEyes initialWidgetState 7 8 9).cameraTranslation
          = initialWidgetState.cameraTranslation
      ∧ (∀ tr,
          (RotateEyes { initialWidgetState with cameraTranslation := tr } 7 8 9).cameraRotations
            = (RotateEyes initialWidgetState 7 8 9).cameraRotations)) := by
  have hp : ∀ a : ℚ, sampleTrig.cos a ^ 2 + sampleTrig.sin a ^ 2 = 1 := by
    intro a
    norm_num [sampleTrig]
  exact ⟨hp _, claim_C10 sampleTrig initialWidgetState 1 2 3 7 8 9 (hp _) (hp _) (hp _)⟩

/-- C6: `InitializeVR` returns false, leaves `m_vrSystem` null and shows a
critical error dialog in exactly four failure cases — no runtime, no headset,
`VR_Init` error, or compositor failure (which additionally shuts the runtime
down) — and returns true with `m_vrSystem` non-null otherwise; when it returns
false, `initializeGL` performs no eye, controller or scene initialization. -/
theorem claim_C6 (env : VREnv) (st : WidgetState) (hvr : st.vrSystem = false) :
    ((InitializeVR env st).1 = false ↔
        (env.runtimeInstalled = false ∨ env.hmdPresent = false
          ∨ env.vrInitError ≠ none ∨ env.compositorOk = false))
    ∧ ((InitializeVR env st).1 = false →
        (InitializeVR env st).2.1.vrSystem = false
          ∧ ∃ tag, (InitializeVR env st).2.2 = [VrEv.criticalDialog tag]
              ∨ (InitializeVR env st).2.2 = [VrEv.criticalDialog tag, VrEv.vrShutdownCall])
    ∧ ((InitializeVR env st).1 = true →
        (InitializeVR env st).2.1.vrSystem = true ∧ (InitializeVR env st).2.2 = [])
    ∧ (VrEv.vrShutdownCall ∈ (InitializeVR env st).2.2 ↔
        (env.runtimeInstalled = true ∧ env.hmdPresent = true ∧ env.vrInitError = none
          ∧ env.compositorOk = false))
    ∧ ((InitializeVR env st).1 = false →
        VrEv.initEyes ∉ (initializeGL env st).2
          ∧ VrEv.initControllers ∉ (initializeGL env st).2
          ∧ VrEv.initRendering ∉ (initializeGL env st).2) := by
  cases hrun : env.runtimeInstalled <;>
    cases hhmd : env.hmdPresent <;>
    rcases herr : env.vrInitError with _ | ec <;>
    cases hcomp : env.compositorOk <;>
    simp [InitializeVR, initializeGL, hrun, hhmd, herr, hcomp, hvr]

/-- Witness for C6 at the sample environment (which initializes successfully)
starting from the freshly-constructed state. -/
theorem claim_C6_witness :
    initialWidgetState.vrSystem = false
    ∧ (((InitializeVR sampleEnv initialWidgetState).1 = false ↔
        (sampleEnv.runtimeInstalled = false ∨ sampleEnv.hmdPresent = false
          ∨ sampleEnv.vrInitError ≠ none ∨ sampleEnv.compositorOk = false))
    ∧ ((InitializeVR sampleEnv initialWidgetState).1 = false →
        (InitializeVR sampleEnv initialWidgetState).2.1.vrSystem = false
          ∧ ∃ tag, (InitializeVR sampleEnv initialWidgetState).2.2 = [VrEv.criticalDialog tag]
              ∨ (InitializeVR sampleEnv initialWidgetState).2.2
                  = [VrEv.criticalDialog tag, VrEv.vrShutdownCall])
    ∧ ((InitializeVR sampleEnv initialWidgetState).1 = true →
        (InitializeVR sampleEnv initialWidgetState).2.1.vrSystem = true
          ∧ (InitializeVR sampleEnv initialWidgetState).2.2 = [])
    ∧ (VrEv.vrShutdownCall ∈ (InitializeVR sampleEnv initialWidgetState).2.2 ↔
        (sampleEnv.runtimeInstalled = true ∧ sampleEnv.hmdPresent = true
          ∧ sampleEnv.vrInitError = none ∧ sampleEnv.compositorOk = false))
    ∧ ((InitializeVR sampleEnv initialWidgetState).1 = false →
        VrEv.initEyes ∉ (initializeGL sampleEnv initialWidgetState).2
          ∧ VrEv.initControllers ∉ (initializeGL sampleEnv initialWidgetState).2
          ∧ VrEv.initRendering ∉ (initializeGL sampleEnv initialWidgetState).2)) :=
  ⟨rfl, claim_C6 sampleEnv initialWidgetState rfl⟩

theorem setEyeTransforms_ok_ex (env : VREnv) (st : WidgetState) (l r : CEyeInfos)
    (hL : st.eyeInfos Eye.Left = some l) (hR : st.eyeInfos Eye.Right = some r) :
    ∃ st1, setEyeTransforms env st = .ok st1
      ∧ st1.eyeInfos Eye.Left = some (updatedEye env Eye.Left l)
      ∧ st1.eyeInfos Eye.Right = some (updatedEye env Eye.Right r)
      ∧ st1.controllers = st.controllers :=
  ⟨_, setEyeTransforms_ok env st l r hL hR, rfl, rfl, rfl⟩

theorem paintGL_active_full (env : VREnv) (st : WidgetState) (l r : CEyeInfos) (rbl rbr : FBO)
    (hvr : st.vrSystem = true)
    (hL : st.eyeInfos Eye.Left = some l) (hR : st.eyeInfos Eye.Right = some r)
    (hrl : l.resolveBuffer = some rbl) (hrr : r.resolveBuffer = some rbr)
    (hsafe : ∀ h, (st.controllers h).bShowController = true
        → (st.controllers h).pRenderModel ≠ none) :
    ∃ st' mirL mirR,
      UpdatePositions env st = .ok st'
      ∧ st'.eyeInfos Eye.Left = some (updatedEye env Eye.Left l)
      ∧ st'.eyeInfos Eye.Right = some (updatedEye env Eye.Right r)
      ∧ (∀ h, (st'.controllers h).pRenderModel = (st.controllers h).pRenderModel
          ∧ (st'.controllers h).bShowController = (st.controllers h).bShowController)
      ∧ (env.deviceClass trackedDeviceIndexHmd = TrackedDeviceClass.HMD →
          env.poseValid trackedDeviceIndexHmd = true →
          st'.hmdPose = qInverted (vrMatrixToQt34 (env.devicePose trackedDeviceIndexHmd)))
      ∧ renderEyeEvs env.trig st' Eye.Left = .ok mirL
      ∧ renderEyeEvs env.trig st' Eye.Right = .ok mirR
      ∧ paintGL env st = .ok (
          [Ev.hookUpdateInputs, Ev.hookUpdateRendering]
          ++ ([Ev.viewportEye Eye.Left l.width l.height, Ev.enableMultisample,
               Ev.bindFB Eye.Left] ++ mirL ++ [Ev.releaseFB Eye.Left, Ev.blitToResolve Eye.Left])
          ++ ([Ev.viewportEye Eye.Right r.width r.height, Ev.enableMultisample,
               Ev.bindFB Eye.Right] ++ mirR ++ [Ev.releaseFB Eye.Right, Ev.blitToResolve Eye.Right])
          ++ [Ev.viewportWindow, Ev.disableMultisample] ++ mirR
          ++ [Ev.submit Eye.Left rbl.tex, Ev.submit Eye.Right rbr.tex]
          ++ [Ev.scheduleUpdate], st') := by
  obtain ⟨st1, hset, he1, he2, hcs⟩ := setEyeTransforms_ok_ex env st l r hL hR
  have hup := UpdatePositions_ok env st st1 hset
  set st' := (List.finRange maxTrackedDeviceCount).foldl (devStep env) st1 with hst'
  have heL : st'.eyeInfos Eye.Left = some (updatedEye env Eye.Left l) := by
    rw [hst', foldl_devStep_eyeInfos]
    exact he1
  have heR : st'.eyeInfos Eye.Right = some (updatedEye env Eye.Right r) := by
    rw [hst', foldl_devStep_eyeInfos]
    exact he2
  have hctrl : ∀ h, (st'.controllers h).pRenderModel = (st.controllers h).pRenderModel
      ∧ (st'.controllers h).bShowController = (st.controllers h).bShowController := by
    intro h
    have hpres := foldl_devStep_controllers env (List.finRange maxTrackedDeviceCount) st1 h
    rw [hcs] at hpres
    exact hpres
  have hsafe' : ∀ h, (st'.controllers h).bShowController = true
      → (st'.controllers h).pRenderModel ≠ none := by
    intro h hb
    rw [(hctrl h).1]
    exact hsafe h ((hctrl h).2 ▸ hb)
  obtain ⟨dL1, dR1, hreL, -, -⟩ :=
    renderEyeEvs_ok env.trig st' Eye.Left (updatedEye env Eye.Left l) heL hsafe'
  obtain ⟨dL2, dR2, hreR, -, -⟩ :=
    renderEyeEvs_ok env.trig st' Eye.Right (updatedEye env Eye.Right r) heR hsafe'
  have hp1 := eyePass_ok env.trig st' Eye.Left (updatedEye env Eye.Left l) _ heL hreL
  have hp2 := eyePass_ok env.trig st' Eye.Right (updatedEye env Eye.Right r) _ heR hreR
  have hsub : submitEvs st' = .ok [Ev.submit Eye.Left rbl.tex, Ev.submit Eye.Right rbr.tex] :=
    submitEvs_ok st' (updatedEye env Eye.Left l) (updatedEye env Eye.Right r) rbl rbr
      heL heR hrl hrr
  have hpaint := paintGL_active_eq env st st' _ _ _ _ hvr hup hp1 hp2 hreR hsub
  refine ⟨st', _, _, hup, heL, heR, hctrl, ?_, hreL, hreR, ?_⟩
  · intro hc0 hv0
    rw [hst']
    exact foldl_finRange_hmdPose env st1 hc0 hv0
  · exact hpaint

/-- C1: with the VR system active, `UpdatePositions` sets each eye's view
matrix to the inverse of the SDK eye-to-head transform (a genuine inverse
whenever the converted transform is invertible) and its projection matrix to
the SDK projection queried at near clip `0.1` and far clip `10000.0`, and sets
`m_hmdPose` to the inverse of the HMD device's converted pose matrix;
`renderEye` then uses the composite view `eyeView * m_hmdPose` for each eye
and draws each shown controller with the MVP matrix
`projection * eyeView * m_hmdPose * controllerPose`. -/
theorem claim_C1 (env : VREnv) (st : WidgetState) (l r : CEyeInfos)
    (hvr : st.vrSystem = true)
    (hL : st.eyeInfos Eye.Left = some l) (hR : st.eyeInfos Eye.Right = some r)
    (hsafe : ∀ h, (st.controllers h).bShowController = true
        → (st.controllers h).pRenderModel ≠ none)
    (h0c : env.deviceClass trackedDeviceIndexHmd = TrackedDeviceClass.HMD)
    (h0v : env.poseValid trackedDeviceIndexHmd = true) :
    ∃ st', UpdatePositions env st = .ok st'
      ∧ (∀ e, ∃ i, st'.eyeInfos e = some i
          ∧ i.view = qInverted (vrMatrixToQt34 (env.eyeToHead e))
          ∧ i.projection = vrMatrixToQt44 (env.projectionMat e NEAR_CLIP FAR_CLIP)
          ∧ ((vrMatrixToQt34 (env.eyeToHead e)).det ≠ 0
              → i.view * vrMatrixToQt34 (env.eyeToHead e) = 1)
          ∧ ∃ evs, renderEyeEvs env.trig st' e = .ok evs
              ∧ Ev.renderScene e ((i.view * st'.hmdPose) * GetCameraMatrix env.trig st')
                  i.projection ∈ evs
              ∧ (∀ h, (st'.controllers h).bShowController = true →
                  Ev.drawController h
                      (i.projection * i.view * st'.hmdPose * (st'.controllers h).rmat4Pose)
                    ∈ evs))
      ∧ st'.hmdPose = qInverted (vrMatrixToQt34 (env.devicePose trackedDeviceIndexHmd))
      ∧ ((vrMatrixToQt34 (env.devicePose trackedDeviceIndexHmd)).det ≠ 0
          → st'.hmdPose * vrMatrixToQt34 (env.devicePose trackedDeviceIndexHmd) = 1) := by
  obtain ⟨st1, hset, he1, he2, hcs⟩ := setEyeTransforms_ok_ex env st l r hL hR
  have hup := UpdatePositions_ok env st st1 hset
  set st' := (List.finRange maxTrackedDeviceCount).foldl (devStep env) st1 with hst'
  have heL : st'.eyeInfos Eye.Left = some (updatedEye env Eye.Left l) := by
    rw [hst', foldl_devStep_eyeInfos]
    exact he1
  have heR : st'.eyeInfos Eye.Right = some (updatedEye env Eye.Right r) := by
    rw [hst', foldl_devStep_eyeInfos]
    exact he2
  have hctrl : ∀ h, (st'.controllers h).pRenderModel = (st.controllers h).pRenderModel
      ∧ (st'.controllers h).bShowController = (st.controllers h).bShowController := by
    intro h
    have hpres := foldl_devStep_controllers env (List.finRange maxTrackedDeviceCount) st1 h
    rw [hcs] at hpres
    exact hpres
  have hsafe' : ∀ h, (st'.controllers h).bShowController = true
      → (st'.controllers h).pRenderModel ≠ none := by
    intro h hb
    rw [(hctrl h).1]
    exact hsafe h ((hctrl h).2 ▸ hb)
  have hhmdeq : st'.hmdPose
      = qInverted (vrMatrixToQt34 (env.devicePose trackedDeviceIndexHmd)) := by
    rw [hst']
    exact foldl_finRange_hmdPose env st1 h0c h0v
  refine ⟨st', hup, ?_, hhmdeq, ?_⟩
  · intro e
    have hego : ∀ i0 : CEyeInfos, st'.eyeInfos e = some (updatedEye env e i0) →
        ∃ i, st'.eyeInfos e = some i
          ∧ i.view = qInverted (vrMatrixToQt34 (env.eyeToHead e))
          ∧ i.projection = vrMatrixToQt44 (env.projectionMat e NEAR_CLIP FAR_CLIP)
          ∧ ((vrMatrixToQt34 (env.eyeToHead e)).det ≠ 0
              → i.view * vrMatrixToQt34 (env.eyeToHead e) = 1)
          ∧ ∃ evs, renderEyeEvs env.trig st' e = .ok evs
              ∧ Ev.renderScene e ((i.view * st'.hmdPose) * GetCameraMatrix env.trig st')
                  i.projection ∈ evs
              ∧ (∀ h, (st'.controllers h).bShowController = true →
                  Ev.drawController h
                      (i.projection * i.view * st'.hmdPose * (st'.controllers h).rmat4Pose)
                    ∈ evs) := by
      intro i0 hei
      refine ⟨updatedEye env e i0, hei, rfl, rfl,
        qInverted_mul_self (vrMatrixToQt34 (env.eyeToHead e)), ?_⟩
      obtain ⟨dL, dR, hre, hdL, hdR⟩ :=
        renderEyeEvs_ok env.trig st' e (updatedEye env e i0) hei hsafe'
      refine ⟨_, hre, ?_, ?_⟩
      · exact List.mem_append_right _ (List.mem_singleton_self _)
      · intro h hb
        have hassoc : (updatedEye env e i0).projection * (updatedEye env e i0).view
              * st'.hmdPose * (st'.controllers h).rmat4Pose
            = ((updatedEye env e i0).projection * ((updatedEye env e i0).view * st'.hmdPose))
              * (st'.controllers h).rmat4Pose := by
          rw [Matrix.mul_assoc ((updatedEye env e i0).projection)
            ((updatedEye env e i0).view) (st'.hmdPose)]
        rw [hassoc]
        rcases hmod : (st'.controllers h).pRenderModel with _ | mo
        · exact absurd hmod (hsafe' h hb)
        cases h
        · have hsh := handDraw_shown (st'.controllers Eye.Left)
            ((updatedEye env e i0).projection * ((updatedEye env e i0).view * st'.hmdPose))
            Eye.Left mo hb hmod
          rw [hdL] at hsh
          have hdl2 := Except.ok.inj hsh
          simp [hdl2]
        · have hsh := handDraw_shown (st'.controllers Eye.Right)
            ((updatedEye env e i0).projection * ((updatedEye env e i0).view * st'.hmdPose))
            Eye.Right mo hb hmod
          rw [hdR] at hsh
          have hdr2 := Except.ok.inj hsh
          simp [hdr2]
    cases e
    · exact hego l heL
    · exact hego r heR
  · intro hdet
    rw [hhmdeq]
    exact qInverted_mul_self _ hdet

/-- Witness for C1: the sample environment with the HMD at device index 0 and
the fully-initialized sample widget state. -/
theorem claim_C1_witness :
    sampleReadyState.vrSystem = true
    ∧ sampleReadyState.eyeInfos Eye.Left = some sampleEyeInfos
    ∧ sampleReadyState.eyeInfos Eye.Right = some sampleEyeInfos
    ∧ (∀ h, (sampleReadyState.controllers h).bShowController = true
        → (sampleReadyState.controllers h).pRenderModel ≠ none)
    ∧ sampleEnv.deviceClass trackedDeviceIndexHmd = TrackedDeviceClass.HMD
    ∧ sampleEnv.poseValid trackedDeviceIndexHmd = true
    ∧ ∃ st', UpdatePositions sampleEnv sampleReadyState = .ok st'
      ∧ (∀ e, ∃ i, st'.eyeInfos e = some i
          ∧ i.view = qInverted (vrMatrixToQt34 (sampleEnv.eyeToHead e))
          ∧ i.projection = vrMatrixToQt44 (sampleEnv.projectionMat e NEAR_CLIP FAR_CLIP)
          ∧ ((vrMatrixToQt34 (sampleEnv.eyeToHead e)).det ≠ 0
              → i.view * vrMatrixToQt34 (sampleEnv.eyeToHead e) = 1)
          ∧ ∃ evs, renderEyeEvs sampleEnv.trig st' e = .ok evs
              ∧ Ev.renderScene e ((i.view * st'.hmdPose) * GetCameraMatrix sampleEnv.trig st')
                  i.projection ∈ evs
              ∧ (∀ h, (st'.controllers h).bShowController = true →
                  Ev.drawController h
                      (i.projection * i.view * st'.hmdPose * (st'.controllers h).rmat4Pose)
                    ∈ evs))
      ∧ st'.hmdPose = qInverted (vrMatrixToQt34 (sampleEnv.devicePose trackedDeviceIndexHmd))
      ∧ ((vrMatrixToQt34 (sampleEnv.devicePose trackedDeviceIndexHmd)).det ≠ 0
          → st'.hmdPose * vrMatrixToQt34 (sampleEnv.devicePose trackedDeviceIndexHmd) = 1) := by
  have hsafe : ∀ h, (sampleReadyState.controllers h).bShowController = true
      → (sampleReadyState.controllers h).pRenderModel ≠ none := by
    intro h hb
    cases h <;> exact absurd hb (by decide)
  have h0c : sampleEnv.deviceClass trackedDeviceIndexHmd = TrackedDeviceClass.HMD := by decide
  exact ⟨rfl, rfl, rfl, hsafe, h0c, rfl,
    claim_C1 sampleEnv sampleReadyState sampleEyeInfos sampleEyeInfos rfl rfl rfl hsafe h0c rfl⟩

/-- C3: with the VR system active, `paintGL` processes the two eyes in order —
bind the multisampled framebuffer (`SetSurface`), render the eye, release and
blit into the resolve framebuffer (`UnsetSurface`) — and only afterwards
submits each eye's resolve-buffer texture to the compositor: no submission
event occurs anywhere before the two submissions at the end of the trace. -/
theorem claim_C3 (env : VREnv) (st : WidgetState) (l r : CEyeInfos) (rbl rbr : FBO)
    (hvr : st.vrSystem = true)
    (hL : st.eyeInfos Eye.Left = some l) (hR : st.eyeInfos Eye.Right = some r)
    (hrl : l.resolveBuffer = some rbl) (hrr : r.resolveBuffer = some rbr)
    (hsafe : ∀ h, (st.controllers h).bShowController = true
        → (st.controllers h).pRenderModel ≠ none) :
    ∃ st' mirL mirR,
      renderEyeEvs env.trig st' Eye.Left = .ok mirL
      ∧ renderEyeEvs env.trig st' Eye.Right = .ok mirR
      ∧ paintGL env st = .ok (
          ([Ev.hookUpdateInputs, Ev.hookUpdateRendering]
          ++ ([Ev.viewportEye Eye.Left l.width l.height, Ev.enableMultisample,
               Ev.bindFB Eye.Left] ++ mirL ++ [Ev.releaseFB Eye.Left, Ev.blitToResolve Eye.Left])
          ++ ([Ev.viewportEye Eye.Right r.width r.height, Ev.enableMultisample,
               Ev.bindFB Eye.Right] ++ mirR ++ [Ev.releaseFB Eye.Right, Ev.blitToResolve Eye.Right])
          ++ [Ev.viewportWindow, Ev.disableMultisample] ++ mirR)
          ++ [Ev.submit Eye.Left rbl.tex, Ev.submit Eye.Right rbr.tex]
          ++ [Ev.scheduleUpdate], st')
      ∧ (∀ x ∈ [Ev.hookUpdateInputs, Ev.hookUpdateRendering]
          ++ ([Ev.viewportEye Eye.Left l.width l.height, Ev.enableMultisample,
               Ev.bindFB Eye.Left] ++ mirL ++ [Ev.releaseFB Eye.Left, Ev.blitToResolve Eye.Left])
          ++ ([Ev.viewportEye Eye.Right r.width r.height, Ev.enableMultisample,
               Ev.bindFB Eye.Right] ++ mirR ++ [Ev.releaseFB Eye.Right, Ev.blitToResolve Eye.Right])
          ++ [Ev.viewportWindow, Ev.disableMultisample] ++ mirR,
          x.isSubmit = false) := by
  obtain ⟨st', mirL, mirR, hup, heL, heR, hctrl, hhmd, hreL, hreR, hpaint⟩ :=
    paintGL_active_full env st l r rbl rbr hvr hL hR hrl hrr hsafe
  refine ⟨st', mirL, mirR, hreL, hreR, hpaint, ?_⟩
  intro x hx
  rcases List.mem_append.mp hx with hx | hx
  · rcases List.mem_append.mp hx with hx | hx
    · rcases List.mem_append.mp hx with hx | hx
      · rcases List.mem_append.mp hx with hx | hx
        · fin_cases hx <;> rfl
        · rcases List.mem_append.mp hx with hx | hx
          · rcases List.mem_append.mp hx with hx | hx
            · fin_cases hx <;> rfl
            · exact renderEyeEvs_no_submit _ _ _ _ hreL x hx
          · fin_cases hx <;> rfl
      · rcases List.mem_append.mp hx with hx | hx
        · rcases List.mem_append.mp hx with hx | hx
          · fin_cases hx <;> rfl
          · exact renderEyeEvs_no_submit _ _ _ _ hreR x hx
        · fin_cases hx <;> rfl
    · fin_cases hx <;> rfl
  · exact renderEyeEvs_no_submit _ _ _ _ hreR x hx

/-- Witness for C3 at the sample environment and initialized state. -/
theorem claim_C3_witness :
    sampleReadyState.vrSystem = true
    ∧ sampleEyeInfos.resolveBuffer = some (sampleGL.makeFBO ⟨false, GL_RGBA8, 0⟩ 4 4)
    ∧ ∃ st' mirL mirR,
      renderEyeEvs sampleEnv.trig st' Eye.Left = .ok mirL
      ∧ renderEyeEvs sampleEnv.trig st' Eye.Right = .ok mirR
      ∧ paintGL sampleEnv sampleReadyState = .ok (
          ([Ev.hookUpdateInputs, Ev.hookUpdateRendering]
          ++ ([Ev.viewportEye Eye.Left sampleEyeInfos.width sampleEyeInfos.height,
               Ev.enableMultisample, Ev.bindFB Eye.Left] ++ mirL
              ++ [Ev.releaseFB Eye.Left, Ev.blitToResolve Eye.Left])
          ++ ([Ev.viewportEye Eye.Right sampleEyeInfos.width sampleEyeInfos.height,
               Ev.enableMultisample, Ev.bindFB Eye.Right] ++ mirR
              ++ [Ev.releaseFB Eye.Right, Ev.blitToResolve Eye.Right])
          ++ [Ev.viewportWindow, Ev.disableMultisample] ++ mirR)
          ++ [Ev.submit Eye.Left (sampleGL.makeFBO ⟨false, GL_RGBA8, 0⟩ 4 4).tex,
              Ev.submit Eye.Right (sampleGL.makeFBO ⟨false, GL_RGBA8, 0⟩ 4 4).tex]
          ++ [Ev.scheduleUpdate], st')
      ∧ (∀ x ∈ [Ev.hookUpdateInputs, Ev.hookUpdateRendering]
          ++ ([Ev.viewportEye Eye.Left sampleEyeInfos.width sampleEyeInfos.height,
               Ev.enableMultisample, Ev.bindFB Eye.Left] ++ mirL
              ++ [Ev.releaseFB Eye.Left, Ev.blitToResolve Eye.Left])
          ++ ([Ev.viewportEye Eye.Right sampleEyeInfos.width sampleEyeInfos.height,
               Ev.enableMultisample, Ev.bindFB Eye.Right] ++ mirR
              ++ [Ev.releaseFB Eye.Right, Ev.blitToResolve Eye.Right])
          ++ [Ev.viewportWindow, Ev.disableMultisample] ++ mirR,
          x.isSubmit = false) := by
  have hsafe : ∀ h, (sampleReadyState.controllers h).bShowController = true
      → (sampleReadyState.controllers h).pRenderModel ≠ none := by
    intro h hb
    cases h <;> exact absurd hb (by decide)
  exact ⟨rfl, rfl,
    claim_C3 sampleEnv sampleReadyState sampleEyeInfos sampleEyeInfos
      (sampleGL.makeFBO ⟨false, GL_RGBA8, 0⟩ 4 4) (sampleGL.makeFBO ⟨false, GL_RGBA8, 0⟩ 4 4)
      rfl rfl rfl rfl rfl hsafe⟩

theorem handDraw_members (c : SControllerInfos) (m : Q4) (h : Eye) (dh : List Ev)
    (hd : handDraw c m h = .ok dh) : ∀ x ∈ dh, ∃ mv, x = Ev.drawController h mv := by
  unfold handDraw at hd
  split at hd
  · split at hd
    · exact absurd hd (by simp)
    · cases hd
      intro x hx
      rw [List.mem_singleton] at hx
      exact ⟨_, hx⟩
  · cases hd
    simp

theorem renderEyeEvs_members (t : Trig) (st : WidgetState) (e : Eye) (evs : List Ev)
    (hevs : renderEyeEvs t st e = .ok evs) :
    ∀ x ∈ evs, x = Ev.clearBuffers ∨ (∃ h mv, x = Ev.drawController h mv)
      ∨ (∃ v p, x = Ev.renderScene e v p) := by
  unfold renderEyeEvs at hevs
  rcases hi : st.eyeInfos e with _ | infos <;> rw [hi] at hevs
  · exact absurd hevs (by simp)
  · dsimp only at hevs
    rcases hdL : handDraw (st.controllers Eye.Left)
        (infos.projection * (infos.view * st.hmdPose)) Eye.Left with erL | dL <;>
      rw [hdL] at hevs
    · exact absurd hevs (by simp)
    · rcases hdR : handDraw (st.controllers Eye.Right)
          (infos.projection * (infos.view * st.hmdPose)) Eye.Right with erR | dR <;>
        rw [hdR] at hevs
      · exact absurd hevs (by simp)
      · cases hevs
        intro x hx
        rcases List.mem_append.mp hx with hx' | hx'
        · rcases List.mem_append.mp hx' with hx'' | hx''
          · rcases List.mem_append.mp hx'' with hx3 | hx3
            · rw [List.mem_singleton] at hx3
              exact Or.inl hx3
            · obtain ⟨mv, hmv⟩ := handDraw_members _ _ _ _ hdL x hx3
              exact Or.inr (Or.inl ⟨Eye.Left, mv, hmv⟩)
          · obtain ⟨mv, hmv⟩ := handDraw_members _ _ _ _ hdR x hx''
            exact Or.inr (Or.inl ⟨Eye.Right, mv, hmv⟩)
        · rw [List.mem_singleton] at hx'
          exact Or.inr (Or.inr ⟨_, _, hx'⟩)

/-- C5: every `paintGL` call renders a mirror view into the window viewport
using the Right eye's view and projection matrices, whether or not the VR
system is active; eye-buffer rendering (framebuffer binds) and compositor
submission happen in addition, and exactly when the VR system pointer is
non-null. -/
theorem claim_C5 (env : VREnv) (st : WidgetState) (l r : CEyeInfos) (rbl rbr : FBO)
    (hL : st.eyeInfos Eye.Left = some l) (hR : st.eyeInfos Eye.Right = some r)
    (hrl : l.resolveBuffer = some rbl) (hrr : r.resolveBuffer = some rbr)
    (hsafe : ∀ h, (st.controllers h).bShowController = true
        → (st.controllers h).pRenderModel ≠ none) :
    ∃ evs st', paintGL env st = .ok (evs, st')
      ∧ (∃ iR, st'.eyeInfos Eye.Right = some iR
          ∧ ∃ pre mir post,
            evs = pre ++ ([Ev.viewportWindow, Ev.disableMultisample] ++ mir) ++ post
            ∧ renderEyeEvs env.trig st' Eye.Right = .ok mir
            ∧ Ev.renderScene Eye.Right ((iR.view * st'.hmdPose) * GetCameraMatrix env.trig st')
                iR.projection ∈ mir)
      ∧ (st.vrSystem = false →
          (∀ x ∈ evs, x.isSubmit = false) ∧ (∀ e', Ev.bindFB e' ∉ evs))
      ∧ (st.vrSystem = true →
          Ev.submit Eye.Left rbl.tex ∈ evs ∧ Ev.submit Eye.Right rbr.tex ∈ evs
          ∧ Ev.bindFB Eye.Left ∈ evs ∧ Ev.bindFB Eye.Right ∈ evs) := by
  cases hsys : st.vrSystem
  · obtain ⟨dL, dR, hre, hdL, hdR⟩ := renderEyeEvs_ok env.trig st Eye.Right r hR hsafe
    have hpaint := paintGL_inactive_eq env st _ hsys hre
    set mir0 := [Ev.clearBuffers] ++ dL ++ dR
        ++ [Ev.renderScene Eye.Right (r.view * st.hmdPose * GetCameraMatrix env.trig st)
              r.projection] with hmir0
    set evs0 := [Ev.viewportWindow, Ev.disableMultisample] ++ mir0 ++ [Ev.scheduleUpdate]
      with hevs0
    have hshape : evs0 = [] ++ ([Ev.viewportWindow, Ev.disableMultisample] ++ mir0)
        ++ [Ev.scheduleUpdate] := by
      rw [hevs0]
      simp
    have hmem : Ev.renderScene Eye.Right ((r.view * st.hmdPose) * GetCameraMatrix env.trig st)
        r.projection ∈ mir0 := by
      rw [hmir0]
      exact List.mem_append_right _ (List.mem_singleton_self _)
    have hns : ∀ x ∈ evs0, x.isSubmit = false := by
      intro x hx
      rw [hevs0] at hx
      rcases List.mem_append.mp hx with hx' | hx'
      · rcases List.mem_append.mp hx' with hx'' | hx''
        · fin_cases hx'' <;> rfl
        · exact renderEyeEvs_no_submit _ _ _ _ hre x hx''
      · fin_cases hx' <;> rfl
    have hnb : ∀ e', Ev.bindFB e' ∉ evs0 := by
      intro e' hmemb
      rw [hevs0] at hmemb
      rcases List.mem_append.mp hmemb with hx' | hx'
      · rcases List.mem_append.mp hx' with hx'' | hx''
        · simp at hx''
        · rcases renderEyeEvs_members _ _ _ _ hre _ hx'' with h1 | ⟨h2, mv, h1⟩ | ⟨v, p, h1⟩ <;>
            exact absurd h1 (by simp)
      · simp at hx' 
    exact ⟨evs0, st, hpaint,
      ⟨r, hR, [], mir0, [Ev.scheduleUpdate], hshape, hre, hmem⟩,
      fun _ => ⟨hns, hnb⟩,
      fun hact => absurd hact (by simp)⟩
  · obtain ⟨st', mirL, mirR, hup, heL, heR, hctrl, hhmd, hreL, hreR, hpaint⟩ :=
      paintGL_active_full env st l r rbl rbr hsys hL hR hrl hrr hsafe
    have hsafe' : ∀ h, (st'.controllers h).bShowController = true
        → (st'.controllers h).pRenderModel ≠ none := by
      intro h hb
      rw [(hctrl h).1]
      exact hsafe h ((hctrl h).2 ▸ hb)
    obtain ⟨dL, dR, hre', hdL, hdR⟩ :=
      renderEyeEvs_ok env.trig st' Eye.Right (updatedEye env Eye.Right r) heR hsafe'
    have hmir : mirR = [Ev.clearBuffers] ++ dL ++ dR
        ++ [Ev.renderScene Eye.Right
            ((updatedEye env Eye.Right r).view * st'.hmdPose * GetCameraMatrix env.trig st')
            (updatedEye env Eye.Right r).projection] :=
      Except.ok.inj (hreR.symm.trans hre')
    set pre0 := [Ev.hookUpdateInputs, Ev.hookUpdateRendering]
        ++ ([Ev.viewportEye Eye.Left l.width l.height, Ev.enableMultisample,
             Ev.bindFB Eye.Left] ++ mirL ++ [Ev.releaseFB Eye.Left, Ev.blitToResolve Eye.Left])
        ++ ([Ev.viewportEye Eye.Right r.width r.height, Ev.enableMultisample,
             Ev.bindFB Eye.Right] ++ mirR
            ++ [Ev.releaseFB Eye.Right, Ev.blitToResolve Eye.Right]) with hpre0
    set evs0 := pre0 ++ [Ev.viewportWindow, Ev.disableMultisample] ++ mirR
        ++ [Ev.submit Eye.Left rbl.tex, Ev.submit Eye.Right rbr.tex]
        ++ [Ev.scheduleUpdate] with hevs0
    have hpaint0 : paintGL env st = .ok (evs0, st') := hpaint
    have hshape : evs0 = pre0 ++ ([Ev.viewportWindow, Ev.disableMultisample] ++ mirR)
        ++ ([Ev.submit Eye.Left rbl.tex, Ev.submit Eye.Right rbr.tex] ++ [Ev.scheduleUpdate]) := by
      rw [hevs0]
      simp
    have hmem : Ev.renderScene Eye.Right
        (((updatedEye env Eye.Right r).view * st'.hmdPose) * GetCameraMatrix env.trig st')
        (updatedEye env Eye.Right r).projection ∈ mirR := by
      rw [hmir]
      exact List.mem_append_right _ (List.mem_singleton_self _)
    have hsubL : Ev.submit Eye.Left rbl.tex ∈ evs0 := by
      rw [hevs0]
      simp
    have hsubR : Ev.submit Eye.Right rbr.tex ∈ evs0 := by
      rw [hevs0]
      simp
    have hbindL : Ev.bindFB Eye.Left ∈ evs0 := by
      rw [hevs0, hpre0]
      simp
    have hbindR : Ev.bindFB Eye.Right ∈ evs0 := by
      rw [hevs0, hpre0]
      simp
    exact ⟨evs0, st', hpaint0,
      ⟨updatedEye env Eye.Right r, heR, pre0, mirR,
        [Ev.submit Eye.Left rbl.tex, Ev.submit Eye.Right rbr.tex] ++ [Ev.scheduleUpdate],
        hshape, hreR, hmem⟩,
      fun hinact => absurd hinact (by simp),
      fun _ => ⟨hsubL, hsubR, hbindL, hbindR⟩⟩

/-- Witness for C5 at the sample environment and initialized state. -/
theorem claim_C5_witness :
    sampleMirrorState.eyeInfos Eye.Left = some sampleEyeInfos
    ∧ sampleMirrorState.eyeInfos Eye.Right = some sampleEyeInfos
    ∧ sampleEyeInfos.resolveBuffer = some (sampleGL.makeFBO ⟨false, GL_RGBA8, 0⟩ 4 4)
    ∧ ∃ evs st', paintGL sampleEnv sampleMirrorState = .ok (evs, st')
      ∧ (∃ iR, st'.eyeInfos Eye.Right = some iR
          ∧ ∃ pre mir post,
            evs = pre ++ ([Ev.viewportWindow, Ev.disableMultisample] ++ mir) ++ post
            ∧ renderEyeEvs sampleEnv.trig st' Eye.Right = .ok mir
            ∧ Ev.renderScene Eye.Right
                ((iR.view * st'.hmdPose) * GetCameraMatrix sampleEnv.trig st')
                iR.projection ∈ mir)
      ∧ (sampleMirrorState.vrSystem = false →
          (∀ x ∈ evs, x.isSubmit = false) ∧ (∀ e', Ev.bindFB e' ∉ evs))
      ∧ (sampleMirrorState.vrSystem = true →
          Ev.submit Eye.Left (sampleGL.makeFBO ⟨false, GL_RGBA8, 0⟩ 4 4).tex ∈ evs
          ∧ Ev.submit Eye.Right (sampleGL.makeFBO ⟨false, GL_RGBA8, 0⟩ 4 4).tex ∈ evs
          ∧ Ev.bindFB Eye.Left ∈ evs ∧ Ev.bindFB Eye.Right ∈ evs) := by
  have hsafe : ∀ h, (sampleMirrorState.controllers h).bShowController = true
      → (sampleMirrorState.controllers h).pRenderModel ≠ none := by
    intro h hb
    cases h <;> exact absurd hb (by decide)
  exact ⟨rfl, rfl, rfl,
    claim_C5 sampleEnv sampleMirrorState sampleEyeInfos sampleEyeInfos
      (sampleGL.makeFBO ⟨false, GL_RGBA8, 0⟩ 4 4) (sampleGL.makeFBO ⟨false, GL_RGBA8, 0⟩ 4 4)
      rfl rfl rfl rfl hsafe⟩

/-- C8: `paintGL` reaches the mirror-view `renderEye(Right)` unconditionally,
even with a null VR system; `renderEye` dereferences `m_eyeInfos[i_eye]`
without a null check, so `paintGL` faults whenever the eye infos it touches
were never created; the constructor leaves both eye-info pointers null, so the
fault is reachable on a freshly constructed widget, and `paintGL` succeeds
when both eye-info objects exist (and shown controllers have models). -/
theorem claim_C8 (env : VREnv) :
    (initialWidgetState.eyeInfos Eye.Left = none
      ∧ initialWidgetState.eyeInfos Eye.Right = none
      ∧ initialWidgetState.vrSystem = false)
    ∧ (∀ (t : Trig) (st : WidgetState) (e : Eye), st.eyeInfos e = none
        → renderEyeEvs t st e = .error ())
    ∧ (∀ st : WidgetState, st.vrSystem = false → st.eyeInfos Eye.Right = none
        → paintGL env st = .error ())
    ∧ (∀ st : WidgetState, st.vrSystem = true → st.eyeInfos Eye.Left = none
        → paintGL env st = .error ())
    ∧ paintGL env initialWidgetState = .error ()
    ∧ (∀ (st : WidgetState) (l r : CEyeInfos) (rbl rbr : FBO),
        st.eyeInfos Eye.Left = some l → st.eyeInfos Eye.Right = some r
        → l.resolveBuffer = some rbl → r.resolveBuffer = some rbr
        → (∀ h, (st.controllers h).bShowController = true
            → (st.controllers h).pRenderModel ≠ none)
        → ∃ out, paintGL env st = .ok out) := by
  refine ⟨⟨rfl, rfl, rfl⟩, ?_, ?_, ?_, ?_, ?_⟩
  · intro t st e he
    unfold renderEyeEvs
    rw [he]
  · intro st hsys he
    have hmir : renderEyeEvs env.trig st Eye.Right = .error () := by
      unfold renderEyeEvs
      rw [he]
    simp only [paintGL, hsys, Bool.false_eq_true, if_false, hmir]
  · intro st hsys he
    have hset : setEyeTransforms env st = .error () := by
      unfold setEyeTransforms
      rcases hR0 : st.eyeInfos Eye.Right with _ | r0 <;> rw [he]
    have hupd : UpdatePositions env st = .error () := by
      unfold UpdatePositions
      rw [hset]
    simp only [paintGL, hsys, if_true, hupd]
  · unfold paintGL renderEyeEvs
    rfl
  · intro st l r rbl rbr hL hR hrl hrr hsafe
    cases hsys : st.vrSystem
    · obtain ⟨dL, dR, hre, hdL, hdR⟩ := renderEyeEvs_ok env.trig st Eye.Right r hR hsafe
      exact ⟨_, paintGL_inactive_eq env st _ hsys hre⟩
    · obtain ⟨st', mirL, mirR, hup, heL, heR, hctrl, hhmd, hreL, hreR, hpaint⟩ :=
        paintGL_active_full env st l r rbl rbr hsys hL hR hrl hrr hsafe
      exact ⟨_, hpaint⟩

/-- Witness for C8 at the sample environment. -/
theorem claim_C8_witness :
    (initialWidgetState.eyeInfos Eye.Left = none
      ∧ initialWidgetState.eyeInfos Eye.Right = none
      ∧ initialWidgetState.vrSystem = false)
    ∧ (∀ (t : Trig) (st : WidgetState) (e : Eye), st.eyeInfos e = none
        → renderEyeEvs t st e = .error ())
    ∧ (∀ st : WidgetState, st.vrSystem = false → st.eyeInfos Eye.Right = none
        → paintGL sampleEnv st = .error ())
    ∧ (∀ st : WidgetState, st.vrSystem = true → st.eyeInfos Eye.Left = none
        → paintGL sampleEnv st = .error ())
    ∧ paintGL sampleEnv initialWidgetState = .error ()
    ∧ (∀ (st : WidgetState) (l r : CEyeInfos) (rbl rbr : FBO),
        st.eyeInfos Eye.Left = some l → st.eyeInfos Eye.Right = some r
        → l.resolveBuffer = some rbl → r.resolveBuffer = some rbr
        → (∀ h, (st.controllers h).bShowController = true
            → (st.controllers h).pRenderModel ≠ none)
        → ∃ out, paintGL sampleEnv st = .ok out) :=
  claim_C8 sampleEnv
